import Mathlib

/-!
Shallow embedding of `src/crswkt/crswktparser.py` (module `crswktparser`,
class `CrsWkt1Parser` plus `CrsWktNode`), the CRS WKT v1 parser built on PLY.

Modelling conventions:
* Python exceptions become the `PyExc` inductive.  `WktSyntaxError` and
  `WktContentError` are the two classes defined by the module; `valueError`
  and `indexError` model the Python builtins `ValueError`/`IndexError`
  escaping uncaught from parser actions.
* `CrsWktNode` is a dynamic attribute bag; it is embedded as
  `PyVal.node node_type attrs` where `attrs` is an insertion-ordered
  association list (Python dict semantics: re-assignment of an existing
  key keeps its slot, a new key is appended).
* Python `float` values in this module only ever come from decimal literals
  and are only ever compared for identity, so they are modelled as exact
  rationals (`Rat`).
* The PLY lexer applies `t_ignore`, then the function rules in definition
  order (in lax mode the comment rule added by `_enable_lax_mode` comes
  first because its code object has the smallest line number), then the
  literal `','`, then `t_error`.  Python's `re.match` uses leftmost
  alternation, not longest match; the matchers below reproduce that.
* Line/position bookkeeping of the lexer is kept (it feeds `t_error`'s
  message); the token positions that PLY would hand to `p_error` are
  elided, so parser-level syntax-error messages carry the offending token
  type instead of line/position.
-/

set_option maxRecDepth 100000

namespace CrsWkt

/-- Failure modes of `parse_text`.  `syntaxError` is `WktSyntaxError`,
`contentError` is `WktContentError`; `valueError` and `indexError` are the
Python builtins escaping from grammar actions. -/
inductive PyExc where
  | syntaxError (msg : String)
  | contentError (msg : String)
  | valueError
  | indexError
deriving DecidableEq, Repr

/-- Values stored in `CrsWktNode` attributes: `None`, strings, ints,
floats (exact rationals), nested nodes, and lists of nodes. -/
inductive PyVal where
  | pynone
  | str (s : String)
  | intv (i : Int)
  | floatv (q : Rat)
  | node (node_type : String) (attrs : List (String × PyVal))
  | listv (xs : List PyVal)
deriving Repr

/-- Token stream elements.  Keyword tokens follow the `keywords` table of
`CrsWkt1Parser` (`GEOCCS ↦ GEOC_CS`, `GEOGCS ↦ GEOG_CS`, `PROJCS ↦ PROJ_CS`,
all others map to themselves). -/
inductive Tok where
  | KEYWORD (s : String)
  | NAME (s : String)
  | NUMBER (s : String)
  | CODE (s : String)
  | AXIS_DIR (s : String)
  | LBRACKET
  | RBRACKET
  | COMMA
  | AUTHORITY
  | AXIS
  | COMPD_CS
  | DATUM
  | GEOC_CS
  | GEOG_CS
  | LOCAL_CS
  | LOCAL_DATUM
  | PARAMETER
  | PRIMEM
  | PROJ_CS
  | PROJECTION
  | SPHEROID
  | TOWGS84
  | UNIT
  | VERT_CS
  | VERT_DATUM
deriving DecidableEq, Repr

/-! ### Lexer (token rules of `CrsWkt1Parser`) -/

/-- Greedy `[0-9]*` span: the matched digits and the rest. -/
def digitSpan : List Char → List Char × List Char
  | [] => ([], [])
  | c :: cs =>
    if c.isDigit then
      let (d, r) := digitSpan cs
      (c :: d, r)
    else ([], c :: cs)

/-- Greedy span of `[^"]*` (the `nonquotes` fragment of the `textstring`
regex). -/
def nonQuoteSpan : List Char → List Char × List Char
  | [] => ([], [])
  | c :: cs =>
    if c = '"' then ([], c :: cs)
    else
      let (a, b) := nonQuoteSpan cs
      (c :: a, b)

/-- Greedy span of `[A-Z_0-9]*` (the tail of the `t_KEYWORD` regex). -/
def kwSpan : List Char → List Char × List Char
  | [] => ([], [])
  | c :: cs =>
    if c.isUpper || c.isDigit || c = '_' then
      let (a, b) := kwSpan cs
      (c :: a, b)
    else ([], c :: cs)

/-- Match a literal word as a prefix, returning the rest. -/
def dropLit : List Char → List Char → Option (List Char)
  | [], cs => some cs
  | _ :: _, [] => none
  | l :: ls, c :: cs => if c = l then dropLit ls cs else none

/-- First literal of the list that is a prefix (leftmost alternation of
`re`). -/
def matchFirstLit : List (List Char) → List Char → Option (List Char × List Char)
  | [], _ => none
  | w :: ws, cs =>
    match dropLit w cs with
    | some r => some (w, r)
    | none => matchFirstLit ws cs

/-- The `t_AXIS_DIR` alternatives, in source order:
`NORTH|SOUTH|EAST|WEST|UP|DOWN|OTHER`. -/
def axisDirWords : List (List Char) :=
  [['N', 'O', 'R', 'T', 'H'], ['S', 'O', 'U', 'T', 'H'], ['E', 'A', 'S', 'T'],
   ['W', 'E', 'S', 'T'], ['U', 'P'], ['D', 'O', 'W', 'N'], ['O', 'T', 'H', 'E', 'R']]

/-- The `keywords` table (WKT keyword ↦ token). -/
def keywordTable : List (String × Tok) :=
  [("AUTHORITY", .AUTHORITY), ("AXIS", .AXIS), ("COMPD_CS", .COMPD_CS),
   ("DATUM", .DATUM), ("GEOCCS", .GEOC_CS), ("GEOGCS", .GEOG_CS),
   ("LOCAL_CS", .LOCAL_CS), ("LOCAL_DATUM", .LOCAL_DATUM),
   ("PARAMETER", .PARAMETER), ("PRIMEM", .PRIMEM), ("PROJCS", .PROJ_CS),
   ("PROJECTION", .PROJECTION), ("SPHEROID", .SPHEROID),
   ("TOWGS84", .TOWGS84), ("UNIT", .UNIT), ("VERT_CS", .VERT_CS),
   ("VERT_DATUM", .VERT_DATUM)]

/-- `t_AXIS_DIR`. -/
def matchAxisDir (cs : List Char) : Option (Tok × List Char) :=
  match matchFirstLit axisDirWords cs with
  | some (w, r) => some (.AXIS_DIR (String.mk w), r)
  | none => none

/-- `t_KEYWORD`: `[A-Z][A-Z_0-9]*`, value mapped through the keyword
table, unknown keywords stay generic `KEYWORD` tokens. -/
def matchKeyword (cs : List Char) : Option (Tok × List Char) :=
  match cs with
  | [] => none
  | c :: cs' =>
    if c.isUpper then
      let (k, r) := kwSpan cs'
      let s : String := String.mk (c :: k)
      some ((keywordTable.lookup s).getD (.KEYWORD s), r)
    else none

/-- `t_CODE`: `\"[0-9]+\"`; the action `eval`s the match, so the token
value is the unquoted digit string. -/
def matchCode (cs : List Char) : Option (Tok × List Char) :=
  match cs with
  | '"' :: cs' =>
    match digitSpan cs' with
    | (d, '"' :: rest) => if d = [] then none else some (.CODE (String.mk d), rest)
    | _ => none
  | _ => none

/-- `t_NAME`: the `textstring` regex `\"([^"])*\"`; value unquoted by the
`eval` in the action. -/
def matchName (cs : List Char) : Option (Tok × List Char) :=
  match cs with
  | '"' :: cs' =>
    match nonQuoteSpan cs' with
    | (d, '"' :: rest) => some (.NAME (String.mk d), rest)
    | _ => none
  | _ => none

/-- Body of the `decimal` regex without the sign:
`[0-9]+\.[0-9]*|[1-9][0-9]*|0`, with `re`'s leftmost alternation. -/
def matchNumBody (cs : List Char) : Option (List Char × List Char) :=
  match digitSpan cs with
  | (d₁, '.' :: r₁) =>
    if d₁ = [] then matchIntAlt cs
    else
      let (d₂, r₂) := digitSpan r₁
      some (d₁ ++ '.' :: d₂, r₂)
  | _ => matchIntAlt cs
where
  /-- The `[1-9][0-9]*|0` alternatives. -/
  matchIntAlt : List Char → Option (List Char × List Char)
    | [] => none
    | c :: cs' =>
      if '1' ≤ c ∧ c ≤ '9' then
        let (d, r) := digitSpan cs'
        some (c :: d, r)
      else if c = '0' then some (['0'], cs')
      else none

/-- `t_NUMBER`: `[+-]?` then the decimal body; the action keeps the raw
matched text as the token value. -/
def matchNumber (cs : List Char) : Option (Tok × List Char) :=
  match cs with
  | c :: cs' =>
    if c = '+' ∨ c = '-' then
      match matchNumBody cs' with
      | some (m, r) => some (.NUMBER (String.mk (c :: m)), r)
      | none => none
    else
      match matchNumBody cs with
      | some (m, r) => some (.NUMBER (String.mk m), r)
      | none => none
  | [] => none

/-- `\n+` span for `t_newline`. -/
def newlineSpan : List Char → Nat × List Char
  | [] => (0, [])
  | c :: cs =>
    if c = '\n' then
      let (n, r) := newlineSpan cs
      (n + 1, r)
    else (0, c :: cs)

/-- Chars dropped by a `\#.*` comment match (everything up to, not
including, the next newline). -/
def commentSpan : List Char → Nat × List Char
  | [] => (0, [])
  | c :: cs =>
    if c = '\n' then (0, c :: cs)
    else
      let (n, r) := commentSpan cs
      (n + 1, r)

/-- One lexer step: what the PLY `token()` call does at the current
position. `skip n nl rest` consumed `n` chars producing no token and
crossing `nl` newlines; `cmt` is the lax-mode comment rule. -/
inductive LexStep where
  | eof
  | skip (n : Nat) (nl : Nat) (rest : List Char)
  | cmt (n : Nat) (rest : List Char)
  | tok (t : Tok) (n : Nat) (rest : List Char)
  | err
deriving Repr

/-- The strict-mode function rules tried in definition order, then the
literal `','`. -/
def strictRules (cs : List Char) : LexStep :=
  match matchAxisDir cs with
  | some (t, r) => .tok t (cs.length - r.length) r
  | none =>
  match matchKeyword cs with
  | some (t, r) => .tok t (cs.length - r.length) r
  | none =>
  match matchCode cs with
  | some (t, r) => .tok t (cs.length - r.length) r
  | none =>
  match matchName cs with
  | some (t, r) => .tok t (cs.length - r.length) r
  | none =>
  match matchNumber cs with
  | some (t, r) => .tok t (cs.length - r.length) r
  | none =>
  match cs with
  | '[' :: r => .tok .LBRACKET 1 r
  | '(' :: r => .tok .LBRACKET 1 r
  | ']' :: r => .tok .RBRACKET 1 r
  | ')' :: r => .tok .RBRACKET 1 r
  | '\n' :: _ =>
    let (n, r) := newlineSpan cs
    .skip n n r
  | ',' :: r => .tok .COMMA 1 r
  | _ => .err

/-- One lexer step.  `t_ignore` first; in lax mode the injected comment
rule precedes all other function rules. -/
def lexStep (lax : Bool) (cs : List Char) : LexStep :=
  match cs with
  | [] => .eof
  | c :: cs' =>
    if c = ' ' ∨ c = '\r' ∨ c = '\t' ∨ c = '\x0c' then .skip 1 0 cs'
    else if lax ∧ c = '#' then
      let (n, r) := commentSpan cs'
      .cmt (n + 1) r
    else strictRules (c :: cs')

/-- The `t_error` message: offending line, position, and the remaining
text (PLY hands `t.value = lexdata[lexpos:]` to `t_error`). -/
def tErrorMsg (line pos : Nat) (cs : List Char) : String :=
  "Illegal character(s) encountered at line number " ++ toString line ++
    ", lexical position " ++ toString pos ++
    "\nToken value = \x27" ++ String.mk cs ++ "\x27"

/-- Run the lexer.  Returns the token list and the number of comments
discarded (the latter is bookkeeping for stating strict/lax theorems; the
source discards comments without trace). -/
def lexRun (lax : Bool) : Nat → List Char → Nat → Nat → Except PyExc (List Tok × Nat)
  | 0, _, _, _ => .error (.syntaxError "lexer fuel exhausted")
  | fuel + 1, cs, pos, line =>
    match lexStep lax cs with
    | .eof => .ok ([], 0)
    | .skip n nl rest => lexRun lax fuel rest (pos + n) (line + nl)
    | .cmt n rest =>
      match lexRun lax fuel rest (pos + n) line with
      | .ok (ts, nc) => .ok (ts, nc + 1)
      | .error e => .error e
    | .tok t n rest =>
      match lexRun lax fuel rest (pos + n) line with
      | .ok (ts, nc) => .ok (t :: ts, nc)
      | .error e => .error e
    | .err => .error (.syntaxError (tErrorMsg line pos cs))

/-- Tokenize a whole string (PLY starts at `lineno = 1`, `lexpos = 0`).
`strict` is the constructor option; `strict = false` enables the comment
rule. -/
def tokenize (strict : Bool) (s : String) : Except PyExc (List Tok × Nat) :=
  lexRun (!strict) (s.data.length + 1) s.data 0 1

/-! ### Node model (`CrsWktNode`) -/

/-- Python dict assignment on the attribute list: an existing key keeps
its slot, a new key is appended. -/
def setAttr : List (String × PyVal) → String → PyVal → List (String × PyVal)
  | [], k, v => [(k, v)]
  | (k', v') :: rest, k, v =>
    if k' = k then (k, v) :: rest else (k', v') :: setAttr rest k v

/-- Attribute lookup. -/
def alookup : List (String × PyVal) → String → Option PyVal
  | [], _ => none
  | (k', v) :: rest, k => if k' = k then some v else alookup rest k

/-- `CrsWktNode.__init__`: `name` defaults to `"unspecified"`, every kind
except `AUTHORITY` gets `authority = None`, then the keyword arguments are
applied. -/
def initNode (nt : String) (kwargs : List (String × PyVal)) : PyVal :=
  let base := [("name", PyVal.str "unspecified")]
  let base := if nt = "AUTHORITY" then base else base ++ [("authority", PyVal.pynone)]
  .node nt (kwargs.foldl (fun a kv => setAttr a kv.1 kv.2) base)

/-- Attribute assignment on a node (`node.attr = v`). -/
def nodeSetAttr (n : PyVal) (k : String) (v : PyVal) : PyVal :=
  match n with
  | .node nt attrs => .node nt (setAttr attrs k v)
  | other => other

/-- Attribute read on a node. -/
def getAttr (n : PyVal) (k : String) : Option PyVal :=
  match n with
  | .node _ attrs => alookup attrs k
  | _ => none

/-- `node.attr_list.append(x)` for a list-valued attribute. -/
def appendAttr (n : PyVal) (k : String) (x : PyVal) : PyVal :=
  match getAttr n k with
  | some (.listv xs) => nodeSetAttr n k (.listv (xs ++ [x]))
  | _ => n

/-- `node_type` of a node value (empty for non-nodes). -/
def kindOf : PyVal → String
  | .node nt _ => nt
  | _ => ""

/-- Length of the `axis_list` attribute. -/
def axisCount (n : PyVal) : Nat :=
  match getAttr n "axis_list" with
  | some (.listv xs) => xs.length
  | _ => 0

/-! ### Node classifiers (the loops inside the `p_*_cs` / `p_datum`
grammar actions) -/

/-- Left fold of a classifier step over the node list, stopping at the
first raised exception. -/
def foldClassify (step : PyVal → PyVal → Except PyExc PyVal) :
    PyVal → List PyVal → Except PyExc PyVal
  | g, [] => .ok g
  | g, n :: ns =>
    match step g n with
    | .ok g' => foldClassify step g' ns
    | .error e => .error e

/-- Loop body of `p_geographic_cs`. -/
def geogStep (g n : PyVal) : Except PyExc PyVal :=
  match n with
  | .node nt _ =>
    if nt = "DATUM" then .ok (nodeSetAttr g "datum" n)
    else if nt = "PRIMEM" then .ok (nodeSetAttr g "prime_meridian" n)
    else if nt = "UNIT" then .ok (nodeSetAttr g "angular_unit" n)
    else if nt = "AXIS" then .ok (appendAttr g "axis_list" n)
    else if nt = "AUTHORITY" then .ok (nodeSetAttr g "authority" n)
    else .error (.syntaxError (nt ++ " node is not valid in a GEOGCS definition"))
  | _ => .ok g

/-- `p_geographic_cs` after the node list has been parsed. -/
def classifyGeog (nm : String) (ns : List PyVal) : Except PyExc PyVal :=
  match foldClassify geogStep (initNode "GEOGCS" [("name", .str nm), ("axis_list", .listv [])]) ns with
  | .ok g =>
    if axisCount g = 0 ∨ axisCount g = 2 then .ok g
    else .error (.syntaxError ("Geographic CS accepts 0 or 2 axes, " ++
      toString (axisCount g) ++ " defined."))
  | .error e => .error e

/-- Loop body of `p_projected_cs`. -/
def projStep (g n : PyVal) : Except PyExc PyVal :=
  match n with
  | .node nt _ =>
    if nt = "PROJECTION" then .ok (nodeSetAttr g "projection" n)
    else if nt = "PARAMETER" then .ok (appendAttr g "param_list" n)
    else if nt = "UNIT" then .ok (nodeSetAttr g "linear_unit" n)
    else if nt = "AXIS" then .ok (appendAttr g "axis_list" n)
    else if nt = "AUTHORITY" then .ok (nodeSetAttr g "authority" n)
    else .error (.syntaxError (nt ++ " node is not valid in a PROJCS definition"))
  | _ => .ok g

/-- `p_projected_cs` after name, nested geographic CS, and node list. -/
def classifyProj (nm : String) (geog : PyVal) (ns : List PyVal) : Except PyExc PyVal :=
  match foldClassify projStep
      (initNode "PROJCS" [("name", .str nm), ("geographic_cs", geog),
        ("param_list", .listv []), ("axis_list", .listv [])]) ns with
  | .ok g =>
    if axisCount g = 0 ∨ axisCount g = 2 then .ok g
    else .error (.syntaxError ("Projected CS accepts 0 or 2 axes, " ++
      toString (axisCount g) ++ " defined."))
  | .error e => .error e

/-- Loop body of `p_geocentric_cs`.  The rejection message names GEOGCS,
exactly as in the source (a copy-paste slip there). -/
def geocStep (g n : PyVal) : Except PyExc PyVal :=
  match n with
  | .node nt _ =>
    if nt = "DATUM" then .ok (nodeSetAttr g "datum" n)
    else if nt = "PRIMEM" then .ok (nodeSetAttr g "prime_meridian" n)
    else if nt = "UNIT" then .ok (nodeSetAttr g "linear_unit" n)
    else if nt = "AXIS" then .ok (appendAttr g "axis_list" n)
    else if nt = "AUTHORITY" then .ok (nodeSetAttr g "authority" n)
    else .error (.syntaxError (nt ++ " node is not valid in a GEOGCS definition"))
  | _ => .ok g

/-- `p_geocentric_cs`. -/
def classifyGeoc (nm : String) (ns : List PyVal) : Except PyExc PyVal :=
  match foldClassify geocStep (initNode "GEOCCS" [("name", .str nm), ("axis_list", .listv [])]) ns with
  | .ok g =>
    if axisCount g = 0 ∨ axisCount g = 3 then .ok g
    else .error (.syntaxError ("Geocentric CS accepts 0 or 3 axes, " ++
      toString (axisCount g) ++ " defined."))
  | .error e => .error e

/-- Loop body of `p_vert_cs`. -/
def vertStep (g n : PyVal) : Except PyExc PyVal :=
  match n with
  | .node nt _ =>
    if nt = "VERT_DATUM" then .ok (nodeSetAttr g "vert_datum" n)
    else if nt = "UNIT" then .ok (nodeSetAttr g "linear_unit" n)
    else if nt = "AXIS" then .ok (appendAttr g "axis_list" n)
    else if nt = "AUTHORITY" then .ok (nodeSetAttr g "authority" n)
    else .error (.syntaxError (nt ++ " node is not valid in a VERT_CS definition"))
  | _ => .ok g

/-- `p_vert_cs`. -/
def classifyVert (nm : String) (ns : List PyVal) : Except PyExc PyVal :=
  match foldClassify vertStep (initNode "VERT_CS" [("name", .str nm), ("axis_list", .listv [])]) ns with
  | .ok g =>
    if axisCount g = 0 ∨ axisCount g = 1 then .ok g
    else .error (.syntaxError ("Vertical CS accepts 0 or 1 axes, " ++
      toString (axisCount g) ++ " defined."))
  | .error e => .error e

/-- Loop body of `p_local_cs`.  The rejection message names VERT_CS,
exactly as in the source (a copy-paste slip there). -/
def localStep (g n : PyVal) : Except PyExc PyVal :=
  match n with
  | .node nt _ =>
    if nt = "LOCAL_DATUM" then .ok (nodeSetAttr g "local_datum" n)
    else if nt = "UNIT" then .ok (nodeSetAttr g "unit" n)
    else if nt = "AXIS" then .ok (appendAttr g "axis_list" n)
    else if nt = "AUTHORITY" then .ok (nodeSetAttr g "authority" n)
    else .error (.syntaxError (nt ++ " node is not valid in a VERT_CS definition"))
  | _ => .ok g

/-- `p_local_cs`. -/
def classifyLocal (nm : String) (ns : List PyVal) : Except PyExc PyVal :=
  match foldClassify localStep (initNode "LOCAL_CS" [("name", .str nm), ("axis_list", .listv [])]) ns with
  | .ok g =>
    if axisCount g = 1 ∨ axisCount g = 2 then .ok g
    else .error (.syntaxError ("Local CS accepts 1 or 2 axes, " ++
      toString (axisCount g) ++ " defined."))
  | .error e => .error e

/-- Loop body of `p_datum`. -/
def datumStep (g n : PyVal) : Except PyExc PyVal :=
  match n with
  | .node nt _ =>
    if nt = "SPHEROID" then .ok (nodeSetAttr g "spheroid" n)
    else if nt = "TOWGS84" then .ok (nodeSetAttr g "towgs84" n)
    else if nt = "AUTHORITY" then .ok (nodeSetAttr g "authority" n)
    else .error (.syntaxError (nt ++ " node is not valid in a DATUM definition"))
  | _ => .ok g

/-- `p_datum` (no axis-count check). -/
def classifyDatum (nm : String) (ns : List PyVal) : Except PyExc PyVal :=
  foldClassify datumStep (initNode "DATUM" [("name", .str nm)]) ns

/-! ### Numeric coercions -/

/-- Value of a digit run. -/
def digitsToNat (ds : List Char) : Nat :=
  ds.foldl (fun a c => a * 10 + (c.toNat - '0'.toNat)) 0

/-- Python `int(s)` on a string matching the lexer's `decimal` regex:
succeeds exactly when the literal has no decimal point. -/
def pyIntOpt (s : String) : Option Int :=
  if s.data.contains '.' then none
  else
    match s.data with
    | '+' :: ds => some (digitsToNat ds : Int)
    | '-' :: ds => some (-(digitsToNat ds : Int))
    | ds => some (digitsToNat ds : Int)

/-- Unsigned decimal value of the literal body as numerator/denominator
(integer part, point, fraction part). -/
def decParts (ds : List Char) : Nat × Nat :=
  match digitSpan ds with
  | (ip, '.' :: fr) =>
    let (fp, _) := digitSpan fr
    (digitsToNat ip * 10 ^ fp.length + digitsToNat fp, 10 ^ fp.length)
  | (ip, _) => (digitsToNat ip, 1)

/-- Python `float(s)` on a string matching the `decimal` regex, modelled
as the exact decimal rational. -/
def floatOfLit (s : String) : Rat :=
  match s.data with
  | '+' :: ds => mkRat (decParts ds).1 (decParts ds).2
  | '-' :: ds => mkRat (-((decParts ds).1 : Int)) (decParts ds).2
  | ds => mkRat (decParts ds).1 (decParts ds).2

/-- `p_number`: `int(p[1])` first, `float(p[1])` on `ValueError`. -/
def pyNumber (lit : String) : PyVal :=
  match pyIntOpt lit with
  | some i => .intv i
  | none => .floatv (floatOfLit lit)

/-- `p_datum_type`: `int(p[1])` with no handler, so a literal with a
decimal point raises an uncaught `ValueError`. -/
def pyIntExc (lit : String) : Except PyExc Int :=
  match pyIntOpt lit with
  | some i => .ok i
  | none => .error .valueError

/-! ### Grammar engine

The yacc grammar is deterministic wherever a token is actually consumed
(every construct opens with its own keyword), so it is embedded as a
recursive-descent parser over the token list.  Two behaviours of the
generated LALR tables are folded in explicitly:

* `p_error` is called with the offending token, or with `None` at end of
  input ("premature end-of-text").
* In a position where the grammar allows the `empty` alternative of
  `authority` (after a comma that is followed by `]`/`,` instead of a
  node, or at an empty `node_list`), PLY resolves the reduce/reduce
  conflict between `authority → empty`, `node_list → empty` and
  `towgs84 → empty` in favour of `p_authority`, the earliest-defined
  rule.  Its action then runs the `len(p) == 2` branch, and the
  unconditional log line `"Read AUTHORITY node ..." % (p[3], p[5])`
  evaluates `p[3]` on a 2-slot production, raising `IndexError`.
-/

/-- Name of a token type, used in the modelled `p_error` message (token
line/position bookkeeping is elided from this embedding). -/
def tokTypeName : Tok → String
  | .KEYWORD _ => "KEYWORD"
  | .NAME _ => "NAME"
  | .NUMBER _ => "NUMBER"
  | .CODE _ => "CODE"
  | .AXIS_DIR _ => "AXIS_DIR"
  | .LBRACKET => "LBRACKET"
  | .RBRACKET => "RBRACKET"
  | .COMMA => ","
  | .AUTHORITY => "AUTHORITY"
  | .AXIS => "AXIS"
  | .COMPD_CS => "COMPD_CS"
  | .DATUM => "DATUM"
  | .GEOC_CS => "GEOC_CS"
  | .GEOG_CS => "GEOG_CS"
  | .LOCAL_CS => "LOCAL_CS"
  | .LOCAL_DATUM => "LOCAL_DATUM"
  | .PARAMETER => "PARAMETER"
  | .PRIMEM => "PRIMEM"
  | .PROJ_CS => "PROJ_CS"
  | .PROJECTION => "PROJECTION"
  | .SPHEROID => "SPHEROID"
  | .TOWGS84 => "TOWGS84"
  | .UNIT => "UNIT"
  | .VERT_CS => "VERT_CS"
  | .VERT_DATUM => "VERT_DATUM"

/-- `p_error`: syntax error naming the offending token, or the premature
end-of-text message when the input ends first. -/
def synErrTok : List Tok → PyExc
  | [] => .syntaxError "Syntax error: premature end-of-text encountered."
  | t :: _ => .syntaxError ("Syntax error at token " ++ tokTypeName t)

/-- Consume one expected terminal. -/
def expectTok (t : Tok) (ts : List Tok) : Except PyExc (Unit × List Tok) :=
  match ts with
  | t' :: rest => if t' = t then .ok ((), rest) else .error (synErrTok (t' :: rest))
  | [] => .error (synErrTok [])

/-- Consume a NAME terminal. -/
def expectName : List Tok → Except PyExc (String × List Tok)
  | .NAME s :: rest => .ok (s, rest)
  | ts => .error (synErrTok ts)

/-- Consume a NUMBER terminal (value is the raw literal text). -/
def expectNumber : List Tok → Except PyExc (String × List Tok)
  | .NUMBER s :: rest => .ok (s, rest)
  | ts => .error (synErrTok ts)

/-- Consume a CODE terminal. -/
def expectCode : List Tok → Except PyExc (String × List Tok)
  | .CODE s :: rest => .ok (s, rest)
  | ts => .error (synErrTok ts)

/-- Consume an AXIS_DIR terminal. -/
def expectAxisDir : List Tok → Except PyExc (String × List Tok)
  | .AXIS_DIR s :: rest => .ok (s, rest)
  | ts => .error (synErrTok ts)

/-- `p_authority`, non-empty alternative:
`AUTHORITY LBRACKET NAME ',' CODE RBRACKET`. -/
def pAuthority (ts : List Tok) : Except PyExc (PyVal × List Tok) := do
  let (_, ts) ← expectTok .AUTHORITY ts
  let (_, ts) ← expectTok .LBRACKET ts
  let (nm, ts) ← expectName ts
  let (_, ts) ← expectTok .COMMA ts
  let (code, ts) ← expectCode ts
  let (_, ts) ← expectTok .RBRACKET ts
  .ok (initNode "AUTHORITY" [("name", .str nm), ("code", .str code)], ts)

/-- The trailing `RBRACKET | ',' authority RBRACKET` shared by the
`compd_cs`, `projection`, `vert_datum`, `local_datum`, `spheroid`,
`primem` and `unit` productions.  A comma followed by `]` takes the
`authority → empty` reduction, whose action raises `IndexError` (see the
section comment). -/
def pAuthTail (ts : List Tok) : Except PyExc (Option PyVal × List Tok) :=
  match ts with
  | .RBRACKET :: rest => .ok (none, rest)
  | .COMMA :: rest =>
    (match rest with
     | .AUTHORITY :: _ => do
       let (a, ts') ← pAuthority rest
       let (_, ts') ← expectTok .RBRACKET ts'
       .ok (some a, ts')
     | .RBRACKET :: _ => .error .indexError
     | other => .error (synErrTok other))
  | other => .error (synErrTok other)

/-- Attach an optional authority (`if ... p[k] is not None` guards in the
actions; the non-empty branch never yields `None`). -/
def withAuth (n : PyVal) : Option PyVal → PyVal
  | some a => nodeSetAttr n "authority" a
  | none => n

/-- `p_unit` (also serving `p_angular_unit` / `p_linear_unit`, which are
pass-throughs); `p_conv_factor` floats the literal. -/
def pUnit (ts : List Tok) : Except PyExc (PyVal × List Tok) := do
  let (_, ts) ← expectTok .UNIT ts
  let (_, ts) ← expectTok .LBRACKET ts
  let (nm, ts) ← expectName ts
  let (_, ts) ← expectTok .COMMA ts
  let (lit, ts) ← expectNumber ts
  let (auth, ts) ← pAuthTail ts
  .ok (withAuth (initNode "UNIT"
    [("name", .str nm), ("conversion_factor", .floatv (floatOfLit lit))]) auth, ts)

/-- `p_primem`; `p_longitude` floats the literal. -/
def pPrimem (ts : List Tok) : Except PyExc (PyVal × List Tok) := do
  let (_, ts) ← expectTok .PRIMEM ts
  let (_, ts) ← expectTok .LBRACKET ts
  let (nm, ts) ← expectName ts
  let (_, ts) ← expectTok .COMMA ts
  let (lit, ts) ← expectNumber ts
  let (auth, ts) ← pAuthTail ts
  .ok (withAuth (initNode "PRIMEM"
    [("name", .str nm), ("longitude", .floatv (floatOfLit lit))]) auth, ts)

/-- `p_spheroid`; `p_semimajor_axis` and `p_flattening` float their
literals. -/
def pSpheroid (ts : List Tok) : Except PyExc (PyVal × List Tok) := do
  let (_, ts) ← expectTok .SPHEROID ts
  let (_, ts) ← expectTok .LBRACKET ts
  let (nm, ts) ← expectName ts
  let (_, ts) ← expectTok .COMMA ts
  let (lit₁, ts) ← expectNumber ts
  let (_, ts) ← expectTok .COMMA ts
  let (lit₂, ts) ← expectNumber ts
  let (auth, ts) ← pAuthTail ts
  .ok (withAuth (initNode "SPHEROID"
    [("name", .str nm), ("semi_major_axis", .floatv (floatOfLit lit₁)),
     ("inverse_flattening", .floatv (floatOfLit lit₂))]) auth, ts)

/-- `p_projection`. -/
def pProjection (ts : List Tok) : Except PyExc (PyVal × List Tok) := do
  let (_, ts) ← expectTok .PROJECTION ts
  let (_, ts) ← expectTok .LBRACKET ts
  let (nm, ts) ← expectName ts
  let (auth, ts) ← pAuthTail ts
  .ok (withAuth (initNode "PROJECTION" [("name", .str nm)]) auth, ts)

/-- `p_axis` (no optional authority in this production). -/
def pAxis (ts : List Tok) : Except PyExc (PyVal × List Tok) := do
  let (_, ts) ← expectTok .AXIS ts
  let (_, ts) ← expectTok .LBRACKET ts
  let (nm, ts) ← expectName ts
  let (_, ts) ← expectTok .COMMA ts
  let (dir, ts) ← expectAxisDir ts
  let (_, ts) ← expectTok .RBRACKET ts
  .ok (initNode "AXIS" [("name", .str nm), ("direction", .str dir)], ts)

/-- `p_param`; `p_number` int-coerces first, floats otherwise. -/
def pParam (ts : List Tok) : Except PyExc (PyVal × List Tok) := do
  let (_, ts) ← expectTok .PARAMETER ts
  let (_, ts) ← expectTok .LBRACKET ts
  let (nm, ts) ← expectName ts
  let (_, ts) ← expectTok .COMMA ts
  let (lit, ts) ← expectNumber ts
  let (_, ts) ← expectTok .RBRACKET ts
  .ok (initNode "PARAMETER" [("name", .str nm), ("value", pyNumber lit)], ts)

/-- `p_vert_datum`; `p_datum_type` int-coerces with no handler. -/
def pVertDatum (ts : List Tok) : Except PyExc (PyVal × List Tok) := do
  let (_, ts) ← expectTok .VERT_DATUM ts
  let (_, ts) ← expectTok .LBRACKET ts
  let (nm, ts) ← expectName ts
  let (_, ts) ← expectTok .COMMA ts
  let (lit, ts) ← expectNumber ts
  let dt ← pyIntExc lit
  let (auth, ts) ← pAuthTail ts
  .ok (withAuth (initNode "VERT_DATUM"
    [("name", .str nm), ("datum_type", .intv dt)]) auth, ts)

/-- `p_local_datum`. -/
def pLocalDatum (ts : List Tok) : Except PyExc (PyVal × List Tok) := do
  let (_, ts) ← expectTok .LOCAL_DATUM ts
  let (_, ts) ← expectTok .LBRACKET ts
  let (nm, ts) ← expectName ts
  let (_, ts) ← expectTok .COMMA ts
  let (lit, ts) ← expectNumber ts
  let dt ← pyIntExc lit
  let (auth, ts) ← pAuthTail ts
  .ok (withAuth (initNode "LOCAL_DATUM"
    [("name", .str nm), ("datum_type", .intv dt)]) auth, ts)

/-- `p_towgs84` (non-empty alternative) together with `p_seven_params`:
exactly seven comma-separated NUMBERs, each floated. -/
def pTowgs84 (ts : List Tok) : Except PyExc (PyVal × List Tok) := do
  let (_, ts) ← expectTok .TOWGS84 ts
  let (_, ts) ← expectTok .LBRACKET ts
  let (l₁, ts) ← expectNumber ts
  let (_, ts) ← expectTok .COMMA ts
  let (l₂, ts) ← expectNumber ts
  let (_, ts) ← expectTok .COMMA ts
  let (l₃, ts) ← expectNumber ts
  let (_, ts) ← expectTok .COMMA ts
  let (l₄, ts) ← expectNumber ts
  let (_, ts) ← expectTok .COMMA ts
  let (l₅, ts) ← expectNumber ts
  let (_, ts) ← expectTok .COMMA ts
  let (l₆, ts) ← expectNumber ts
  let (_, ts) ← expectTok .COMMA ts
  let (l₇, ts) ← expectNumber ts
  let (_, ts) ← expectTok .RBRACKET ts
  .ok (initNode "TOWGS84"
    [("name", .str "unspecified"),
     ("dx", .floatv (floatOfLit l₁)), ("dy", .floatv (floatOfLit l₂)),
     ("dz", .floatv (floatOfLit l₃)), ("ex", .floatv (floatOfLit l₄)),
     ("ey", .floatv (floatOfLit l₅)), ("ez", .floatv (floatOfLit l₆)),
     ("ppm", .floatv (floatOfLit l₇))], ts)

mutual

/-- One element of `node_list` (`p_node`): dispatch on the leading
keyword.  A `,` or `]` in node position takes the `authority → empty`
reduction and raises `IndexError`; any other token is a syntax error. -/
def pNode : Nat → List Tok → Except PyExc (PyVal × List Tok)
  | 0, _ => .error (.syntaxError "parser fuel exhausted")
  | fuel + 1, ts =>
    match ts with
    | .UNIT :: _ => pUnit ts
    | .AUTHORITY :: _ => pAuthority ts
    | .AXIS :: _ => pAxis ts
    | .DATUM :: _ => pDatum fuel ts
    | .LOCAL_DATUM :: _ => pLocalDatum ts
    | .PARAMETER :: _ => pParam ts
    | .PRIMEM :: _ => pPrimem ts
    | .PROJECTION :: _ => pProjection ts
    | .SPHEROID :: _ => pSpheroid ts
    | .TOWGS84 :: _ => pTowgs84 ts
    | .VERT_DATUM :: _ => pVertDatum ts
    | .COMMA :: _ => .error .indexError
    | .RBRACKET :: _ => .error .indexError
    | other => .error (synErrTok other)

/-- `node_list : node_list ',' node | node | empty` (left-to-right
accumulation, as in `p_node_list`). -/
def pNodeList (fuel : Nat) (ts : List Tok) : Except PyExc (List PyVal × List Tok) :=
  match fuel with
  | 0 => .error (.syntaxError "parser fuel exhausted")
  | fuel + 1 => do
    let (n, ts) ← pNode fuel ts
    pNodeListAux fuel [n] ts

/-- Tail of `node_list`: further `',' node` items. -/
def pNodeListAux : Nat → List PyVal → List Tok → Except PyExc (List PyVal × List Tok)
  | 0, _, _ => .error (.syntaxError "parser fuel exhausted")
  | fuel + 1, acc, ts =>
    match ts with
    | .COMMA :: rest => do
      let (n, ts') ← pNode fuel rest
      pNodeListAux fuel (acc ++ [n]) ts'
    | _ => .ok (acc, ts)

/-- `p_datum`. -/
def pDatum (fuel : Nat) (ts : List Tok) : Except PyExc (PyVal × List Tok) :=
  match fuel with
  | 0 => .error (.syntaxError "parser fuel exhausted")
  | fuel + 1 => do
    let (_, ts) ← expectTok .DATUM ts
    let (_, ts) ← expectTok .LBRACKET ts
    let (nm, ts) ← expectName ts
    let (_, ts) ← expectTok .COMMA ts
    let (ns, ts) ← pNodeList fuel ts
    let (_, ts) ← expectTok .RBRACKET ts
    let d ← classifyDatum nm ns
    .ok (d, ts)

end

/-- `p_geographic_cs`. -/
def pGeogcs (fuel : Nat) (ts : List Tok) : Except PyExc (PyVal × List Tok) := do
  let (_, ts) ← expectTok .GEOG_CS ts
  let (_, ts) ← expectTok .LBRACKET ts
  let (nm, ts) ← expectName ts
  let (_, ts) ← expectTok .COMMA ts
  let (ns, ts) ← pNodeList fuel ts
  let (_, ts) ← expectTok .RBRACKET ts
  let g ← classifyGeog nm ns
  .ok (g, ts)

/-- `p_projected_cs` (nested geographic CS is positional). -/
def pProjcs (fuel : Nat) (ts : List Tok) : Except PyExc (PyVal × List Tok) := do
  let (_, ts) ← expectTok .PROJ_CS ts
  let (_, ts) ← expectTok .LBRACKET ts
  let (nm, ts) ← expectName ts
  let (_, ts) ← expectTok .COMMA ts
  let (geog, ts) ← pGeogcs fuel ts
  let (_, ts) ← expectTok .COMMA ts
  let (ns, ts) ← pNodeList fuel ts
  let (_, ts) ← expectTok .RBRACKET ts
  let g ← classifyProj nm geog ns
  .ok (g, ts)

/-- `p_geocentric_cs`. -/
def pGeoccs (fuel : Nat) (ts : List Tok) : Except PyExc (PyVal × List Tok) := do
  let (_, ts) ← expectTok .GEOC_CS ts
  let (_, ts) ← expectTok .LBRACKET ts
  let (nm, ts) ← expectName ts
  let (_, ts) ← expectTok .COMMA ts
  let (ns, ts) ← pNodeList fuel ts
  let (_, ts) ← expectTok .RBRACKET ts
  let g ← classifyGeoc nm ns
  .ok (g, ts)

/-- `p_vert_cs`. -/
def pVertcs (fuel : Nat) (ts : List Tok) : Except PyExc (PyVal × List Tok) := do
  let (_, ts) ← expectTok .VERT_CS ts
  let (_, ts) ← expectTok .LBRACKET ts
  let (nm, ts) ← expectName ts
  let (_, ts) ← expectTok .COMMA ts
  let (ns, ts) ← pNodeList fuel ts
  let (_, ts) ← expectTok .RBRACKET ts
  let g ← classifyVert nm ns
  .ok (g, ts)

/-- `p_local_cs`. -/
def pLocalcs (fuel : Nat) (ts : List Tok) : Except PyExc (PyVal × List Tok) := do
  let (_, ts) ← expectTok .LOCAL_CS ts
  let (_, ts) ← expectTok .LBRACKET ts
  let (nm, ts) ← expectName ts
  let (_, ts) ← expectTok .COMMA ts
  let (ns, ts) ← pNodeList fuel ts
  let (_, ts) ← expectTok .RBRACKET ts
  let g ← classifyLocal nm ns
  .ok (g, ts)

/-- `p_single_cs` / `p_horiz_cs`: dispatch on the opening keyword. -/
def pSingleCS (fuel : Nat) (ts : List Tok) : Except PyExc (PyVal × List Tok) :=
  match ts with
  | .GEOG_CS :: _ => pGeogcs fuel ts
  | .PROJ_CS :: _ => pProjcs fuel ts
  | .GEOC_CS :: _ => pGeoccs fuel ts
  | .VERT_CS :: _ => pVertcs fuel ts
  | .LOCAL_CS :: _ => pLocalcs fuel ts
  | other => .error (synErrTok other)

/-- `p_compd_cs`. -/
def pCompd (fuel : Nat) (ts : List Tok) : Except PyExc (PyVal × List Tok) := do
  let (_, ts) ← expectTok .COMPD_CS ts
  let (_, ts) ← expectTok .LBRACKET ts
  let (nm, ts) ← expectName ts
  let (_, ts) ← expectTok .COMMA ts
  let (hd, ts) ← pSingleCS fuel ts
  let (_, ts) ← expectTok .COMMA ts
  let (tl, ts) ← pSingleCS fuel ts
  let (auth, ts) ← pAuthTail ts
  .ok (withAuth (initNode "COMPD_CS"
    [("name", .str nm), ("head_cs", hd), ("tail_cs", tl)]) auth, ts)

/-- `p_coord_sys` (the start symbol). -/
def pCoordSys (fuel : Nat) (ts : List Tok) : Except PyExc (PyVal × List Tok) :=
  match ts with
  | .COMPD_CS :: _ => pCompd fuel ts
  | _ => pSingleCS fuel ts

/-- Run the grammar on a token list; trailing tokens after the root
coordinate system are a syntax error. -/
def parseToks (ts : List Tok) : Except PyExc PyVal :=
  match pCoordSys (ts.length + 1) ts with
  | .ok (cs, []) => .ok cs
  | .ok (_, t :: rest) => .error (synErrTok (t :: rest))
  | .error e => .error e

/-- `CrsWkt1Parser(strict=...).parse_text(wkt)`. -/
def parse_text (strict : Bool) (wkt : String) : Except PyExc PyVal :=
  match tokenize strict wkt with
  | .ok (ts, _) => parseToks ts
  | .error e => .error e

/-! ### Exporter (`CrsWktNode.as_dict`) -/

/-- Values of the exported dictionary. -/
inductive DVal where
  | str (s : String)
  | int (i : Int)
  | float (q : Rat)
  | dict (d : List (String × DVal))
  | list (xs : List DVal)
deriving Repr

/-- Python dict assignment on the output dictionary (`odict[k] = v`). -/
def dinsert : List (String × DVal) → String → DVal → List (String × DVal)
  | [], k, v => [(k, v)]
  | (k', v') :: rest, k, v =>
    if k' = k then (k, v) :: rest else (k', v') :: dinsert rest k v

/-- Build `odict` from the per-attribute entries in iteration order
(`None`-valued attributes contribute no entry). -/
def ddictOf (entries : List (Option (String × DVal))) : List (String × DVal) :=
  entries.foldl (fun od e => match e with
    | some kv => dinsert od kv.1 kv.2
    | none => od) []

mutual

/-- The entry one attribute contributes to `odict` in `as_dict`:
`None` is skipped, a node-valued attribute is keyed by the CHILD's
`node_type`, a list-valued attribute keeps its own key and maps each node
element to a single-entry dict, scalars keep key and value. -/
def entryOf : String → PyVal → Option (String × DVal)
  | _, .pynone => none
  | k, .str s => some (k, .str s)
  | k, .intv i => some (k, .int i)
  | k, .floatv q => some (k, .float q)
  | _, .node nt attrs => some (nt, .dict (ddictOf (entryList attrs)))
  | k, .listv xs => some (k, .list (listDicts xs))

/-- Entries of all attributes, in attribute order. -/
def entryList : List (String × PyVal) → List (Option (String × DVal))
  | [] => []
  | (k, v) :: rest => entryOf k v :: entryList rest

/-- The list branch of `as_dict`: node elements become single-entry
dicts `{x.node_type: x.as_dict(depth+1)}`, non-node elements are
skipped. -/
def listDicts : List PyVal → List DVal
  | [] => []
  | .node nt attrs :: rest =>
    .dict [(nt, .dict (ddictOf (entryList attrs)))] :: listDicts rest
  | _ :: rest => listDicts rest

end

/-- `CrsWktNode.as_dict()` at depth 0: a single-entry mapping from the
node's kind tag to the mapping of its non-null fields. -/
def as_dict : PyVal → DVal
  | .node nt attrs => .dict [(nt, .dict (ddictOf (entryList attrs)))]
  | _ => .dict []

/-! ### Observers used by the claim statements -/

/-- Did the parse succeed? -/
def resultOk : Except PyExc PyVal → Bool
  | .ok _ => true
  | .error _ => false

/-- Did the parse raise `WktSyntaxError`? -/
def resultIsSyntax : Except PyExc PyVal → Bool
  | .error (.syntaxError _) => true
  | _ => false

/-- Did the parse raise `WktContentError`? -/
def resultIsContent : Except PyExc PyVal → Bool
  | .error (.contentError _) => true
  | _ => false

/-- Is the exception one of the module's two documented error classes? -/
def isWktErr : PyExc → Bool
  | .syntaxError _ => true
  | .contentError _ => true
  | _ => false

/-- Attribute of the root node of a successful parse. -/
def okAttr (r : Except PyExc PyVal) (k : String) : Option PyVal :=
  match r with
  | .ok n => getAttr n k
  | .error _ => none

/-- The `value` attributes of the root's `param_list`, in order. -/
def okParamValues (r : Except PyExc PyVal) : List (Option PyVal) :=
  match okAttr r "param_list" with
  | some (.listv xs) => xs.map (fun p => getAttr p "value")
  | _ => []

/-- Number of non-`None` attributes of the root node of a successful
parse. -/
def okNonNoneCount (r : Except PyExc PyVal) : Nat :=
  match r with
  | .ok (.node _ attrs) => (attrs.filter (fun kv =>
      match kv.2 with
      | .pynone => false
      | _ => true)).length
  | _ => 0

/-- Number of entries in the exported field dictionary of the root of a
successful parse. -/
def okExportFieldCount (r : Except PyExc PyVal) : Nat :=
  match r with
  | .ok (.node _ attrs) => (ddictOf (entryList attrs)).length
  | _ => 0

/-- The exported dictionary of a successful parse. -/
def okExport (r : Except PyExc PyVal) : DVal :=
  match r with
  | .ok n => as_dict n
  | .error _ => .dict []

/-! ### Concrete inputs used by the claim theorems -/

/-- The one-axis GEOGCS scenario from the spec. -/
def wktGeogOneAxis : String := "GEOGCS[\"G\", AXIS[\"lat\",NORTH]]"

/-- A GEOCCS whose body holds a PARAMETER node (invalid there). -/
def wktGeocBadChild : String := "GEOCCS[\"C\", PARAMETER[\"p\", 1.0]]"

/-- A LOCAL_CS whose body holds a PROJECTION node (invalid there). -/
def wktLocalBadChild : String := "LOCAL_CS[\"L\", PROJECTION[\"p\"], AXIS[\"x\", EAST]]"

/-- A GEOGCS whose body holds a PROJECTION node (invalid there). -/
def wktGeogBadChild : String := "GEOGCS[\"G\", PROJECTION[\"p\"]]"

/-- A decimal literal in datum_type position. -/
def wktVertDatumDecimal : String := "VERT_CS[\"V\", VERT_DATUM[\"D\", 2005.0]]"

/-- TOWGS84 with six values. -/
def wktTowgs6 : String := "GEOGCS[\"G\", DATUM[\"D\", TOWGS84[1,2,3,4,5,6]]]"

/-- TOWGS84 with eight values. -/
def wktTowgs8 : String := "GEOGCS[\"G\", DATUM[\"D\", TOWGS84[1,2,3,4,5,6,7,8]]]"

/-- TOWGS84 with the mandated seven values. -/
def wktTowgs7 : String := "GEOGCS[\"G\", DATUM[\"D\", TOWGS84[375,-111,431,0,0,0,0]]]"

/-- The projected-CS scenario of the spec (section 8), with a second
PARAMETER carrying the float literal 49.0. -/
def wktProj : String :=
  "PROJCS[\"P\", GEOGCS[\"G\", DATUM[\"D\", SPHEROID[\"S\", 6377563.396, 299.3249646]], PRIMEM[\"Greenwich\", 0], UNIT[\"degree\", 0.0174532925199433]], PROJECTION[\"Transverse Mercator\"], PARAMETER[\"False easting\", 400000], PARAMETER[\"Latitude\", 49.0], UNIT[\"metre\", 1.0], AXIS[\"N\", NORTH], AXIS[\"E\", EAST], AUTHORITY[\"EPSG\", \"27700\"]]"

/-- The same projected CS with an all-digit quoted label. -/
def wktProjCodeLabel : String :=
  "PROJCS[\"123\", GEOGCS[\"G\", UNIT[\"d\", 1.0]], PROJECTION[\"TM\"]]"

/-- The same projected CS with a regular label. -/
def wktProjNameLabel : String :=
  "PROJCS[\"P\", GEOGCS[\"G\", UNIT[\"d\", 1.0]], PROJECTION[\"TM\"]]"

/-- A COMPD_CS whose head and tail coordinate systems have the same kind
(two VERT_CS nodes). -/
def wktCompdSameKind : String :=
  "COMPD_CS[\"C\", VERT_CS[\"A\", UNIT[\"m\", 1.0]], VERT_CS[\"B\", UNIT[\"m\", 1.0]]]"

/-- A GEOGCS with two UNIT children and two AXIS children. -/
def wktTwoUnits : String :=
  "GEOGCS[\"G\", UNIT[\"a\", 1.0], UNIT[\"b\", 2.0], AXIS[\"x\", NORTH], AXIS[\"y\", EAST]]"

/-- A DATUM with two SPHEROID children. -/
def wktTwoSpheroids : String :=
  "GEOGCS[\"G\", DATUM[\"D\", SPHEROID[\"s1\", 1.0, 2.0], SPHEROID[\"s2\", 3.0, 4.0]]]"

/-- A WKT document with a standalone and an inline `#` comment. -/
def wktCommented : String :=
  "GEOGCS[\n# standalone comment\n\"G\", AXIS[\"lat\",NORTH], # inline comment\nAXIS[\"lon\",EAST]]"

/-- The same document with the two comments removed. -/
def wktUncommented : String :=
  "GEOGCS[\n\n\"G\", AXIS[\"lat\",NORTH], \nAXIS[\"lon\",EAST]]"

/-! ### Shared lemmas about the classifiers -/

theorem geogStep_error_syntax (g n : PyVal) (e : PyExc) (h : geogStep g n = .error e) :
    ∃ m, e = .syntaxError m := by
  cases n <;> simp [geogStep] at h
  case node nt attrs =>
    split_ifs at h
    simp_all
    exact ⟨_, h.symm⟩

theorem projStep_error_syntax (g n : PyVal) (e : PyExc) (h : projStep g n = .error e) :
    ∃ m, e = .syntaxError m := by
  cases n <;> simp [projStep] at h
  case node nt attrs =>
    split_ifs at h
    simp_all
    exact ⟨_, h.symm⟩

theorem geocStep_error_syntax (g n : PyVal) (e : PyExc) (h : geocStep g n = .error e) :
    ∃ m, e = .syntaxError m := by
  cases n <;> simp [geocStep] at h
  case node nt attrs =>
    split_ifs at h
    simp_all
    exact ⟨_, h.symm⟩

theorem vertStep_error_syntax (g n : PyVal) (e : PyExc) (h : vertStep g n = .error e) :
    ∃ m, e = .syntaxError m := by
  cases n <;> simp [vertStep] at h
  case node nt attrs =>
    split_ifs at h
    simp_all
    exact ⟨_, h.symm⟩

theorem localStep_error_syntax (g n : PyVal) (e : PyExc) (h : localStep g n = .error e) :
    ∃ m, e = .syntaxError m := by
  cases n <;> simp [localStep] at h
  case node nt attrs =>
    split_ifs at h
    simp_all
    exact ⟨_, h.symm⟩

theorem foldClassify_error_syntax {step : PyVal → PyVal → Except PyExc PyVal}
    (hstep : ∀ g n e, step g n = .error e → ∃ m, e = .syntaxError m) :
    ∀ (ns : List PyVal) (g : PyVal) (e : PyExc),
      foldClassify step g ns = .error e → ∃ m, e = .syntaxError m := by
  intro ns
  induction ns with
  | nil => intro g e h; simp [foldClassify] at h
  | cons n ns ih =>
    intro g e h
    unfold foldClassify at h
    cases hs : step g n with
    | ok g' => rw [hs] at h; exact ih g' e h
    | error e' =>
      rw [hs] at h
      injection h with he
      subst he
      exact hstep _ _ _ hs

/-! ### Claim C1 -/

/-- C1, counterexample.  The one-axis GEOGCS scenario raises
`WktSyntaxError` with message "Geographic CS accepts 0 or 2 axes, 1
defined.", not a `WktContentError` citing "0 or 2 axes expected, 1
defined" as the claim states. -/
theorem C1_counterexample :
    parse_text true wktGeogOneAxis =
      .error (.syntaxError "Geographic CS accepts 0 or 2 axes, 1 defined.") ∧
    resultIsContent (parse_text true wktGeogOneAxis) = false :=
  ⟨rfl, rfl⟩

/-- C1 (amended): every classifier either returns a node satisfying its
axis-count invariant (GEOGCS/PROJCS in {0,2}, GEOCCS in {0,3}, VERT_CS in
{0,1}, LOCAL_CS in {1,2}) or raises the Syntax-kind error
(`WktSyntaxError`) — never a malformed tree; the one-axis GEOGCS scenario
raises `WktSyntaxError` with message "Geographic CS accepts 0 or 2 axes,
1 defined.". -/
theorem C1_axis_invariants :
    (∀ nm ns, (∃ g, classifyGeog nm ns = .ok g ∧ (axisCount g = 0 ∨ axisCount g = 2)) ∨
      (∃ m, classifyGeog nm ns = .error (.syntaxError m))) ∧
    (∀ nm geog ns, (∃ g, classifyProj nm geog ns = .ok g ∧ (axisCount g = 0 ∨ axisCount g = 2)) ∨
      (∃ m, classifyProj nm geog ns = .error (.syntaxError m))) ∧
    (∀ nm ns, (∃ g, classifyGeoc nm ns = .ok g ∧ (axisCount g = 0 ∨ axisCount g = 3)) ∨
      (∃ m, classifyGeoc nm ns = .error (.syntaxError m))) ∧
    (∀ nm ns, (∃ g, classifyVert nm ns = .ok g ∧ (axisCount g = 0 ∨ axisCount g = 1)) ∨
      (∃ m, classifyVert nm ns = .error (.syntaxError m))) ∧
    (∀ nm ns, (∃ g, classifyLocal nm ns = .ok g ∧ (axisCount g = 1 ∨ axisCount g = 2)) ∨
      (∃ m, classifyLocal nm ns = .error (.syntaxError m))) ∧
    parse_text true wktGeogOneAxis =
      .error (.syntaxError "Geographic CS accepts 0 or 2 axes, 1 defined.") := by
  refine ⟨?_, ?_, ?_, ?_, ?_, rfl⟩
  · intro nm ns
    simp only [classifyGeog]
    cases h : foldClassify geogStep (initNode "GEOGCS" [("name", .str nm), ("axis_list", .listv [])]) ns with
    | ok g =>
      by_cases hc : axisCount g = 0 ∨ axisCount g = 2
      · exact Or.inl ⟨g, by simp [hc], hc⟩
      · exact Or.inr ⟨"Geographic CS accepts 0 or 2 axes, " ++ toString (axisCount g) ++ " defined.", by simp [hc]⟩
    | error e =>
      obtain ⟨m, rfl⟩ := foldClassify_error_syntax geogStep_error_syntax ns _ e h
      exact Or.inr ⟨m, rfl⟩
  · intro nm geog ns
    simp only [classifyProj]
    cases h : foldClassify projStep (initNode "PROJCS" [("name", .str nm), ("geographic_cs", geog),
        ("param_list", .listv []), ("axis_list", .listv [])]) ns with
    | ok g =>
      by_cases hc : axisCount g = 0 ∨ axisCount g = 2
      · exact Or.inl ⟨g, by simp [hc], hc⟩
      · exact Or.inr ⟨"Projected CS accepts 0 or 2 axes, " ++ toString (axisCount g) ++ " defined.", by simp [hc]⟩
    | error e =>
      obtain ⟨m, rfl⟩ := foldClassify_error_syntax projStep_error_syntax ns _ e h
      exact Or.inr ⟨m, rfl⟩
  · intro nm ns
    simp only [classifyGeoc]
    cases h : foldClassify geocStep (initNode "GEOCCS" [("name", .str nm), ("axis_list", .listv [])]) ns with
    | ok g =>
      by_cases hc : axisCount g = 0 ∨ axisCount g = 3
      · exact Or.inl ⟨g, by simp [hc], hc⟩
      · exact Or.inr ⟨"Geocentric CS accepts 0 or 3 axes, " ++ toString (axisCount g) ++ " defined.", by simp [hc]⟩
    | error e =>
      obtain ⟨m, rfl⟩ := foldClassify_error_syntax geocStep_error_syntax ns _ e h
      exact Or.inr ⟨m, rfl⟩
  · intro nm ns
    simp only [classifyVert]
    cases h : foldClassify vertStep (initNode "VERT_CS" [("name", .str nm), ("axis_list", .listv [])]) ns with
    | ok g =>
      by_cases hc : axisCount g = 0 ∨ axisCount g = 1
      · exact Or.inl ⟨g, by simp [hc], hc⟩
      · exact Or.inr ⟨"Vertical CS accepts 0 or 1 axes, " ++ toString (axisCount g) ++ " defined.", by simp [hc]⟩
    | error e =>
      obtain ⟨m, rfl⟩ := foldClassify_error_syntax vertStep_error_syntax ns _ e h
      exact Or.inr ⟨m, rfl⟩
  · intro nm ns
    simp only [classifyLocal]
    cases h : foldClassify localStep (initNode "LOCAL_CS" [("name", .str nm), ("axis_list", .listv [])]) ns with
    | ok g =>
      by_cases hc : axisCount g = 1 ∨ axisCount g = 2
      · exact Or.inl ⟨g, by simp [hc], hc⟩
      · exact Or.inr ⟨"Local CS accepts 1 or 2 axes, " ++ toString (axisCount g) ++ " defined.", by simp [hc]⟩
    | error e =>
      obtain ⟨m, rfl⟩ := foldClassify_error_syntax localStep_error_syntax ns _ e h
      exact Or.inr ⟨m, rfl⟩

/-! ### Claim C2 -/

/-- C2, counterexample.  A PARAMETER child inside a GEOCCS body raises
`WktSyntaxError` (not a Content error), and the message names GEOGCS
although the parent is GEOCCS. -/
theorem C2_counterexample :
    parse_text true wktGeocBadChild =
      .error (.syntaxError "PARAMETER node is not valid in a GEOGCS definition") ∧
    resultIsContent (parse_text true wktGeocBadChild) = false :=
  ⟨rfl, rfl⟩

/-- C2 (amended): a child kind invalid for its parent context raises the
Syntax-kind error (`WktSyntaxError`, not `WktContentError`) whose message
names the offending child kind and a parent kind that is correct for
GEOGCS, PROJCS, VERT_CS and DATUM bodies but says GEOGCS for GEOCCS
bodies and VERT_CS for LOCAL_CS bodies. -/
theorem C2_child_kind_rejection :
    (∀ g nt attrs, nt ∉ (["DATUM", "PRIMEM", "UNIT", "AXIS", "AUTHORITY"] : List String) →
      geogStep g (.node nt attrs) =
        .error (.syntaxError (nt ++ " node is not valid in a GEOGCS definition"))) ∧
    (∀ g nt attrs, nt ∉ (["PROJECTION", "PARAMETER", "UNIT", "AXIS", "AUTHORITY"] : List String) →
      projStep g (.node nt attrs) =
        .error (.syntaxError (nt ++ " node is not valid in a PROJCS definition"))) ∧
    (∀ g nt attrs, nt ∉ (["DATUM", "PRIMEM", "UNIT", "AXIS", "AUTHORITY"] : List String) →
      geocStep g (.node nt attrs) =
        .error (.syntaxError (nt ++ " node is not valid in a GEOGCS definition"))) ∧
    (∀ g nt attrs, nt ∉ (["VERT_DATUM", "UNIT", "AXIS", "AUTHORITY"] : List String) →
      vertStep g (.node nt attrs) =
        .error (.syntaxError (nt ++ " node is not valid in a VERT_CS definition"))) ∧
    (∀ g nt attrs, nt ∉ (["LOCAL_DATUM", "UNIT", "AXIS", "AUTHORITY"] : List String) →
      localStep g (.node nt attrs) =
        .error (.syntaxError (nt ++ " node is not valid in a VERT_CS definition"))) ∧
    (∀ g nt attrs, nt ∉ (["SPHEROID", "TOWGS84", "AUTHORITY"] : List String) →
      datumStep g (.node nt attrs) =
        .error (.syntaxError (nt ++ " node is not valid in a DATUM definition"))) ∧
    parse_text true wktLocalBadChild =
      .error (.syntaxError "PROJECTION node is not valid in a VERT_CS definition") ∧
    parse_text true wktGeogBadChild =
      .error (.syntaxError "PROJECTION node is not valid in a GEOGCS definition") := by
  refine ⟨?_, ?_, ?_, ?_, ?_, ?_, rfl, rfl⟩
  · intro g nt attrs h
    simp only [List.mem_cons, List.mem_singleton, not_or] at h
    obtain ⟨h1, h2, h3, h4, h5, -⟩ := h
    simp [geogStep, h1, h2, h3, h4, h5]
  · intro g nt attrs h
    simp only [List.mem_cons, List.mem_singleton, not_or] at h
    obtain ⟨h1, h2, h3, h4, h5, -⟩ := h
    simp [projStep, h1, h2, h3, h4, h5]
  · intro g nt attrs h
    simp only [List.mem_cons, List.mem_singleton, not_or] at h
    obtain ⟨h1, h2, h3, h4, h5, -⟩ := h
    simp [geocStep, h1, h2, h3, h4, h5]
  · intro g nt attrs h
    simp only [List.mem_cons, List.mem_singleton, not_or] at h
    obtain ⟨h1, h2, h3, h4, -⟩ := h
    simp [vertStep, h1, h2, h3, h4]
  · intro g nt attrs h
    simp only [List.mem_cons, List.mem_singleton, not_or] at h
    obtain ⟨h1, h2, h3, h4, -⟩ := h
    simp [localStep, h1, h2, h3, h4]
  · intro g nt attrs h
    simp only [List.mem_cons, List.mem_singleton, not_or] at h
    obtain ⟨h1, h2, h3, -⟩ := h
    simp [datumStep, h1, h2, h3]

/-- C2, witness for the amended theorem. -/
theorem C2_child_kind_rejection_witness :
    geogStep (initNode "GEOGCS" []) (.node "TOWGS84" []) =
      .error (.syntaxError ("TOWGS84" ++ " node is not valid in a GEOGCS definition")) :=
  C2_child_kind_rejection.1 (initNode "GEOGCS" []) "TOWGS84" [] (by decide)

/-! ### Claim C3 -/

/-- C3: the code is wrong — a decimal literal in datum_type position
(`int('2005.0')` in `p_datum_type`) raises an uncaught Python
`ValueError`, which is neither of the two documented error kinds, contra
the module's own error-handling documentation. -/
theorem C3_uncaught_value_error :
    parse_text true wktVertDatumDecimal = .error .valueError ∧
    isWktErr .valueError = false :=
  ⟨rfl, rfl⟩

/-! ### Claim C4 -/

/-- C4: a PARAMETER value is the integer coercion of its literal when
`int()` succeeds and the float coercion otherwise; conversion factors,
longitudes, semi-major axes, inverse flattenings and the seven TOWGS84
parameters are always floats; a datum type is always an integer; in the
section-8 scenario the PARAMETER literals 400000 and 49.0 come out as the
integer 400000 and the float 49.0. -/
theorem C4_numeric_coercion :
    (∀ lit i, pyIntOpt lit = some i → pyNumber lit = .intv i) ∧
    (∀ lit, pyIntOpt lit = none → pyNumber lit = .floatv (floatOfLit lit)) ∧
    (∀ nm lit rest, pParam (.PARAMETER :: .LBRACKET :: .NAME nm :: .COMMA ::
        .NUMBER lit :: .RBRACKET :: rest) =
      .ok (initNode "PARAMETER" [("name", .str nm), ("value", pyNumber lit)], rest)) ∧
    (∀ nm lit rest, pUnit (.UNIT :: .LBRACKET :: .NAME nm :: .COMMA ::
        .NUMBER lit :: .RBRACKET :: rest) =
      .ok (initNode "UNIT" [("name", .str nm),
        ("conversion_factor", .floatv (floatOfLit lit))], rest)) ∧
    (∀ nm lit rest, pPrimem (.PRIMEM :: .LBRACKET :: .NAME nm :: .COMMA ::
        .NUMBER lit :: .RBRACKET :: rest) =
      .ok (initNode "PRIMEM" [("name", .str nm),
        ("longitude", .floatv (floatOfLit lit))], rest)) ∧
    (∀ nm l₁ l₂ rest, pSpheroid (.SPHEROID :: .LBRACKET :: .NAME nm :: .COMMA ::
        .NUMBER l₁ :: .COMMA :: .NUMBER l₂ :: .RBRACKET :: rest) =
      .ok (initNode "SPHEROID" [("name", .str nm),
        ("semi_major_axis", .floatv (floatOfLit l₁)),
        ("inverse_flattening", .floatv (floatOfLit l₂))], rest)) ∧
    (∀ l₁ l₂ l₃ l₄ l₅ l₆ l₇ rest, pTowgs84 (.TOWGS84 :: .LBRACKET ::
        .NUMBER l₁ :: .COMMA :: .NUMBER l₂ :: .COMMA :: .NUMBER l₃ :: .COMMA ::
        .NUMBER l₄ :: .COMMA :: .NUMBER l₅ :: .COMMA :: .NUMBER l₆ :: .COMMA ::
        .NUMBER l₇ :: .RBRACKET :: rest) =
      .ok (initNode "TOWGS84"
        [("name", .str "unspecified"),
         ("dx", .floatv (floatOfLit l₁)), ("dy", .floatv (floatOfLit l₂)),
         ("dz", .floatv (floatOfLit l₃)), ("ex", .floatv (floatOfLit l₄)),
         ("ey", .floatv (floatOfLit l₅)), ("ez", .floatv (floatOfLit l₆)),
         ("ppm", .floatv (floatOfLit l₇))], rest)) ∧
    (∀ nm lit i rest, pyIntOpt lit = some i →
      pVertDatum (.VERT_DATUM :: .LBRACKET :: .NAME nm :: .COMMA ::
        .NUMBER lit :: .RBRACKET :: rest) =
      .ok (initNode "VERT_DATUM" [("name", .str nm), ("datum_type", .intv i)], rest)) ∧
    okParamValues (parse_text true wktProj) = [some (.intv 400000), some (.floatv 49)] := by
  refine ⟨?_, ?_, ?_, ?_, ?_, ?_, ?_, ?_, rfl⟩
  · intro lit i h
    simp [pyNumber, h]
  · intro lit h
    simp [pyNumber, h]
  · intro nm lit rest
    rfl
  · intro nm lit rest
    rfl
  · intro nm lit rest
    rfl
  · intro nm l₁ l₂ rest
    rfl
  · intro l₁ l₂ l₃ l₄ l₅ l₆ l₇ rest
    rfl
  · intro nm lit i rest h
    have e : pyIntExc lit = Except.ok i := by simp [pyIntExc, h]
    show (do
      let dt ← pyIntExc lit
      Except.ok (initNode "VERT_DATUM" [("name", PyVal.str nm), ("datum_type", PyVal.intv dt)],
        rest)) = _
    rw [e]
    rfl

/-- C4, witness for the hypotheses (the int/float dichotomy and the
datum-type part, instantiated at the literals 400000, 49.0 and 2005). -/
theorem C4_numeric_coercion_witness :
    pyNumber "400000" = .intv 400000 ∧
    pyNumber "49.0" = .floatv (floatOfLit "49.0") ∧
    pVertDatum (.VERT_DATUM :: .LBRACKET :: .NAME "D" :: .COMMA ::
        .NUMBER "2005" :: .RBRACKET :: []) =
      .ok (initNode "VERT_DATUM" [("name", .str "D"), ("datum_type", .intv 2005)], []) :=
  ⟨C4_numeric_coercion.1 "400000" 400000 rfl,
   C4_numeric_coercion.2.1 "49.0" rfl,
   C4_numeric_coercion.2.2.2.2.2.2.2.1 "D" "2005" 2005 [] rfl⟩

/-! ### Claim C5 -/

/-- C5: a successfully parsed TOWGS84 node carries exactly the seven
float fields dx,dy,dz,ex,ey,ez,ppm; six or eight comma-separated numbers
inside TOWGS84 are rejected by the grammar with a Syntax-kind error (and
not a Content error), both at the production level and end to end. -/
theorem C5_towgs84_arity :
    (∀ l₁ l₂ l₃ l₄ l₅ l₆ l₇ rest, pTowgs84 (.TOWGS84 :: .LBRACKET ::
        .NUMBER l₁ :: .COMMA :: .NUMBER l₂ :: .COMMA :: .NUMBER l₃ :: .COMMA ::
        .NUMBER l₄ :: .COMMA :: .NUMBER l₅ :: .COMMA :: .NUMBER l₆ :: .COMMA ::
        .NUMBER l₇ :: .RBRACKET :: rest) =
      .ok (initNode "TOWGS84"
        [("name", .str "unspecified"),
         ("dx", .floatv (floatOfLit l₁)), ("dy", .floatv (floatOfLit l₂)),
         ("dz", .floatv (floatOfLit l₃)), ("ex", .floatv (floatOfLit l₄)),
         ("ey", .floatv (floatOfLit l₅)), ("ez", .floatv (floatOfLit l₆)),
         ("ppm", .floatv (floatOfLit l₇))], rest)) ∧
    (∀ l₁ l₂ l₃ l₄ l₅ l₆ rest, pTowgs84 (.TOWGS84 :: .LBRACKET ::
        .NUMBER l₁ :: .COMMA :: .NUMBER l₂ :: .COMMA :: .NUMBER l₃ :: .COMMA ::
        .NUMBER l₄ :: .COMMA :: .NUMBER l₅ :: .COMMA :: .NUMBER l₆ ::
        .RBRACKET :: rest) =
      .error (.syntaxError "Syntax error at token RBRACKET")) ∧
    (∀ l₁ l₂ l₃ l₄ l₅ l₆ l₇ l₈ rest, pTowgs84 (.TOWGS84 :: .LBRACKET ::
        .NUMBER l₁ :: .COMMA :: .NUMBER l₂ :: .COMMA :: .NUMBER l₃ :: .COMMA ::
        .NUMBER l₄ :: .COMMA :: .NUMBER l₅ :: .COMMA :: .NUMBER l₆ :: .COMMA ::
        .NUMBER l₇ :: .COMMA :: .NUMBER l₈ :: .RBRACKET :: rest) =
      .error (.syntaxError "Syntax error at token ,")) ∧
    resultIsSyntax (parse_text true wktTowgs6) = true ∧
    resultIsContent (parse_text true wktTowgs6) = false ∧
    resultIsSyntax (parse_text true wktTowgs8) = true ∧
    resultIsContent (parse_text true wktTowgs8) = false ∧
    parse_text true wktTowgs7 = .ok (.node "GEOGCS"
      [("name", .str "G"), ("authority", .pynone), ("axis_list", .listv []),
       ("datum", .node "DATUM"
         [("name", .str "D"), ("authority", .pynone),
          ("towgs84", .node "TOWGS84"
            [("name", .str "unspecified"), ("authority", .pynone),
             ("dx", .floatv 375), ("dy", .floatv (-111)), ("dz", .floatv 431),
             ("ex", .floatv 0), ("ey", .floatv 0), ("ez", .floatv 0),
             ("ppm", .floatv 0)])])]) := by
  refine ⟨?_, ?_, ?_, rfl, rfl, rfl, rfl, rfl⟩
  · intro l₁ l₂ l₃ l₄ l₅ l₆ l₇ rest
    rfl
  · intro l₁ l₂ l₃ l₄ l₅ l₆ rest
    rfl
  · intro l₁ l₂ l₃ l₄ l₅ l₆ l₇ l₈ rest
    rfl

/-! ### Claim C6 -/

theorem dinsert_append (d : List (String × DVal)) (k : String) (v : DVal)
    (h : ∀ kv ∈ d, kv.1 ≠ k) : dinsert d k v = d ++ [(k, v)] := by
  induction d with
  | nil => rfl
  | cons kv rest ih =>
    have hk : kv.1 ≠ k := h kv (by simp)
    simp only [dinsert, if_neg hk, List.cons_append, List.cons.injEq, true_and]
    exact ih (fun kv' hm => h kv' (by simp [hm]))

theorem ddictOf_foldl_nodup (es : List (Option (String × DVal)))
    (od : List (String × DVal))
    (h : ((od.map Prod.fst) ++ (es.reduceOption.map Prod.fst)).Nodup) :
    es.foldl (fun od e => match e with
      | some kv => dinsert od kv.1 kv.2
      | none => od) od = od ++ es.reduceOption := by
  induction es generalizing od with
  | nil => simp
  | cons e es ih =>
    cases e with
    | none =>
      simp only [List.foldl_cons, List.reduceOption_cons_of_none]
      exact ih od (by simpa using h)
    | some kv =>
      simp only [List.foldl_cons, List.reduceOption_cons_of_some] at h ⊢
      have hmem : ∀ kv' ∈ od, kv'.1 ≠ kv.1 := by
        intro kv' hm he
        rw [List.nodup_append] at h
        exact h.2.2 (List.mem_map_of_mem Prod.fst hm) (by simp [he])
      rw [dinsert_append od kv.1 kv.2 hmem]
      rw [ih (od ++ [(kv.1, kv.2)]) (by simpa using h)]
      simp

/-- Keys are not duplicated among the entries. -/
theorem ddictOf_nodup (es : List (Option (String × DVal)))
    (h : (es.reduceOption.map Prod.fst).Nodup) :
    ddictOf es = es.reduceOption := by
  have := ddictOf_foldl_nodup es [] (by simpa using h)
  simpa [ddictOf] using this

/-- C6, counterexample.  For the COMPD_CS whose head and tail coordinate
systems are both VERT_CS nodes, the parse succeeds with three non-null
fields (name, head_cs, tail_cs), but the export carries only two entries:
`as_dict` keys node-valued fields by the child's kind, so one of the two
same-kind fields is dropped, contradicting "no dropped non-null keys". -/
theorem C6_counterexample :
    resultOk (parse_text true wktCompdSameKind) = true ∧
    okNonNoneCount (parse_text true wktCompdSameKind) = 3 ∧
    okExportFieldCount (parse_text true wktCompdSameKind) = 2 :=
  ⟨rfl, rfl, rfl⟩

/-- C6 (amended): the export is a single-entry mapping from the node's
kind to its non-null fields; `None`-valued attributes are omitted;
whenever the per-attribute entry keys are distinct the output contains
exactly one entry per non-null attribute, in attribute order (so no
extraneous and no dropped keys); but node-valued fields are keyed by the
child's kind tag, so when two node-valued fields hold nodes of the same
kind (a COMPD_CS whose head_cs and tail_cs have the same kind) the later
entry overwrites the earlier and a non-null field is dropped; on the
section-8 scenario the export is exactly the expected mapping, with the
unset authorities omitted and param/axis lists in input order. -/
theorem C6_export_shape :
    (∀ nt attrs, as_dict (.node nt attrs) =
      .dict [(nt, .dict (ddictOf (entryList attrs)))]) ∧
    (∀ k, entryOf k .pynone = none) ∧
    (∀ es : List (Option (String × DVal)), (es.reduceOption.map Prod.fst).Nodup →
      ddictOf es = es.reduceOption) ∧
    resultOk (parse_text true wktCompdSameKind) = true ∧
    okNonNoneCount (parse_text true wktCompdSameKind) = 3 ∧
    okExportFieldCount (parse_text true wktCompdSameKind) = 2 ∧
    okExport (parse_text true wktProj) = .dict
      [("PROJCS", .dict
        [("name", .str "P"),
         ("AUTHORITY", .dict [("name", .str "EPSG"), ("code", .str "27700")]),
         ("GEOGCS", .dict
           [("name", .str "G"),
            ("axis_list", .list []),
            ("DATUM", .dict
              [("name", .str "D"),
               ("SPHEROID", .dict
                 [("name", .str "S"),
                  ("semi_major_axis", .float (mkRat 6377563396 1000)),
                  ("inverse_flattening", .float (mkRat 2993249646 10000000))])]),
            ("PRIMEM", .dict [("name", .str "Greenwich"), ("longitude", .float 0)]),
            ("UNIT", .dict
              [("name", .str "degree"),
               ("conversion_factor", .float (mkRat 174532925199433 10000000000000000))])]),
         ("param_list", .list
           [.dict [("PARAMETER", .dict
              [("name", .str "False easting"), ("value", .int 400000)])],
            .dict [("PARAMETER", .dict
              [("name", .str "Latitude"), ("value", .float 49)])]]),
         ("axis_list", .list
           [.dict [("AXIS", .dict [("name", .str "N"), ("direction", .str "NORTH")])],
            .dict [("AXIS", .dict [("name", .str "E"), ("direction", .str "EAST")])]]),
         ("PROJECTION", .dict [("name", .str "Transverse Mercator")]),
         ("UNIT", .dict [("name", .str "metre"), ("conversion_factor", .float 1)])])] := by
  refine ⟨fun nt attrs => rfl, fun k => rfl, ddictOf_nodup, rfl, rfl, rfl, by rfl⟩

/-- C6, witness for the no-collision hypothesis of the amended theorem. -/
theorem C6_export_shape_witness :
    ddictOf [some ("name", .str "P"), none, some ("UNIT", .dict [])] =
      [("name", DVal.str "P"), ("UNIT", DVal.dict [])] :=
  C6_export_shape.2.2.1 [some ("name", .str "P"), none, some ("UNIT", .dict [])] (by simp)

/-! ### Lexer lemmas (rests produced by the token rules are suffixes) -/

theorem digitSpan_suffix (cs : List Char) : (digitSpan cs).2 <:+ cs := by
  induction cs with
  | nil => exact List.suffix_refl _
  | cons c cs ih =>
    by_cases h : c.isDigit
    · have e : (digitSpan (c :: cs)).2 = (digitSpan cs).2 := by simp [digitSpan, h]
      rw [e]
      exact ih.trans (List.suffix_cons c cs)
    · simp only [digitSpan, h]
      exact List.suffix_refl _

theorem nonQuoteSpan_suffix (cs : List Char) : (nonQuoteSpan cs).2 <:+ cs := by
  induction cs with
  | nil => exact List.suffix_refl _
  | cons c cs ih =>
    by_cases h : c = '"'
    · simp only [nonQuoteSpan, if_pos h]
      exact List.suffix_refl _
    · have e : (nonQuoteSpan (c :: cs)).2 = (nonQuoteSpan cs).2 := by simp [nonQuoteSpan, h]
      rw [e]
      exact ih.trans (List.suffix_cons c cs)

theorem kwSpan_suffix (cs : List Char) : (kwSpan cs).2 <:+ cs := by
  induction cs with
  | nil => exact List.suffix_refl _
  | cons c cs ih =>
    by_cases h : (c.isUpper || c.isDigit || c = '_') = true
    · have e : (kwSpan (c :: cs)).2 = (kwSpan cs).2 := by simp [kwSpan, h]
      rw [e]
      exact ih.trans (List.suffix_cons c cs)
    · simp only [kwSpan, h]
      exact List.suffix_refl _

theorem newlineSpan_suffix (cs : List Char) : (newlineSpan cs).2 <:+ cs := by
  induction cs with
  | nil => exact List.suffix_refl _
  | cons c cs ih =>
    by_cases h : c = '\n'
    · have e : (newlineSpan (c :: cs)).2 = (newlineSpan cs).2 := by simp [newlineSpan, h]
      rw [e]
      exact ih.trans (List.suffix_cons c cs)
    · simp only [newlineSpan, h]
      exact List.suffix_refl _

theorem dropLit_suffix : ∀ (w cs r : List Char), dropLit w cs = some r → r <:+ cs := by
  intro w
  induction w with
  | nil =>
    intro cs r h
    injection h with h
    exact h ▸ List.suffix_refl _
  | cons l ls ih =>
    intro cs r h
    cases cs with
    | nil => exact absurd h (by simp [dropLit])
    | cons c cs' =>
      by_cases hc : c = l
      · simp only [dropLit, if_pos hc] at h
        exact (ih cs' r h).trans (List.suffix_cons c cs')
      · simp [dropLit, hc] at h

theorem matchFirstLit_suffix : ∀ (ws : List (List Char)) (cs w r : List Char),
    matchFirstLit ws cs = some (w, r) → r <:+ cs := by
  intro ws
  induction ws with
  | nil => intro cs w r h; simp [matchFirstLit] at h
  | cons w' ws ih =>
    intro cs w r h
    unfold matchFirstLit at h
    cases hd : dropLit w' cs with
    | some r' =>
      rw [hd] at h
      injection h with h
      have : r' = r := congrArg Prod.snd h
      exact this ▸ dropLit_suffix w' cs r' hd
    | none =>
      rw [hd] at h
      exact ih cs w r h

theorem matchAxisDir_suffix (cs : List Char) (t : Tok) (r : List Char)
    (h : matchAxisDir cs = some (t, r)) : r <:+ cs := by
  unfold matchAxisDir at h
  cases hm : matchFirstLit axisDirWords cs with
  | some wr =>
    rw [hm] at h
    injection h with h
    cases wr with
    | mk w r' =>
      have : r' = r := congrArg Prod.snd h
      exact this ▸ matchFirstLit_suffix axisDirWords cs w r' hm
  | none => rw [hm] at h; exact absurd h (by simp)

theorem matchKeyword_suffix (cs : List Char) (t : Tok) (r : List Char)
    (h : matchKeyword cs = some (t, r)) : r <:+ cs := by
  cases cs with
  | nil => simp [matchKeyword] at h
  | cons c cs' =>
    by_cases hu : c.isUpper
    · simp only [matchKeyword, if_pos hu] at h
      injection h with h
      have : (kwSpan cs').2 = r := congrArg Prod.snd h
      exact this ▸ (kwSpan_suffix cs').trans (List.suffix_cons c cs')
    · simp [matchKeyword, hu] at h

theorem matchCode_suffix (cs : List Char) (t : Tok) (r : List Char)
    (h : matchCode cs = some (t, r)) : r <:+ cs := by
  unfold matchCode at h
  split at h
  case h_2 => exact absurd h (by simp)
  case h_1 c cs' =>
    split at h
    case h_2 hne => exact absurd h (by simp)
    case h_1 d r' heq =>
      split at h
      · exact absurd h (by simp)
      · injection h with h
        have hr : r' = r := congrArg Prod.snd h
        have hsuf : ('"' :: r') <:+ cs' := by
          have := digitSpan_suffix cs'
          rw [heq] at this
          exact this
        have : r' <:+ cs' := (List.suffix_cons '"' r').trans hsuf
        exact hr ▸ this.trans (List.suffix_cons '"' cs')

theorem matchName_suffix (cs : List Char) (t : Tok) (r : List Char)
    (h : matchName cs = some (t, r)) : r <:+ cs := by
  unfold matchName at h
  split at h
  case h_2 => exact absurd h (by simp)
  case h_1 c cs' =>
    split at h
    case h_2 hne => exact absurd h (by simp)
    case h_1 d r' heq =>
      injection h with h
      have hr : r' = r := congrArg Prod.snd h
      have hsuf : ('"' :: r') <:+ cs' := by
        have := nonQuoteSpan_suffix cs'
        rw [heq] at this
        exact this
      have : r' <:+ cs' := (List.suffix_cons '"' r').trans hsuf
      exact hr ▸ this.trans (List.suffix_cons '"' cs')

theorem matchIntAlt_suffix (cs m r : List Char)
    (h : matchNumBody.matchIntAlt cs = some (m, r)) : r <:+ cs := by
  cases cs with
  | nil => simp [matchNumBody.matchIntAlt] at h
  | cons c cs' =>
    simp only [matchNumBody.matchIntAlt] at h
    split_ifs at h with h1 h2
    · cases hd : digitSpan cs' with
      | mk d r₂ =>
        rw [hd] at h
        injection h with h
        have : r₂ = r := congrArg Prod.snd h
        have hs : r₂ <:+ cs' := by
          have := digitSpan_suffix cs'
          rw [hd] at this
          exact this
        exact this ▸ hs.trans (List.suffix_cons c cs')
    · injection h with h
      have : cs' = r := congrArg Prod.snd h
      exact this ▸ List.suffix_cons c cs'

theorem matchNumBody_suffix (cs m r : List Char)
    (h : matchNumBody cs = some (m, r)) : r <:+ cs := by
  unfold matchNumBody at h
  split at h
  case h_1 d₁ r₁ heq =>
    split_ifs at h with hd
    · exact matchIntAlt_suffix cs m r h
    · injection h with h
      have hr : (digitSpan r₁).2 = r := congrArg Prod.snd h
      have h1 : ('.' :: r₁) <:+ cs := by
        have := digitSpan_suffix cs
        rw [heq] at this
        exact this
      have h2 : r₁ <:+ cs := (List.suffix_cons '.' r₁).trans h1
      exact hr ▸ (digitSpan_suffix r₁).trans h2
  case h_2 =>
    exact matchIntAlt_suffix cs m r h

theorem matchNumber_suffix (cs : List Char) (t : Tok) (r : List Char)
    (h : matchNumber cs = some (t, r)) : r <:+ cs := by
  cases cs with
  | nil => simp [matchNumber] at h
  | cons c cs' =>
    simp only [matchNumber] at h
    split_ifs at h with hs
    · cases hb : matchNumBody cs' with
      | some mr =>
        rw [hb] at h
        cases mr with
        | mk m r' =>
          injection h with h
          have : r' = r := congrArg Prod.snd h
          exact this ▸ (matchNumBody_suffix cs' m r' hb).trans (List.suffix_cons c cs')
      | none => rw [hb] at h; exact absurd h (by simp)
    · cases hb : matchNumBody (c :: cs') with
      | some mr =>
        rw [hb] at h
        cases mr with
        | mk m r' =>
          injection h with h
          have : r' = r := congrArg Prod.snd h
          exact this ▸ matchNumBody_suffix (c :: cs') m r' hb
      | none => rw [hb] at h; exact absurd h (by simp)

/-- Every outcome of the strict rule chain, with its rest a suffix. -/
theorem strictRules_cases (cs : List Char) :
    strictRules cs = .err ∨
    (∃ t n r, strictRules cs = .tok t n r ∧ r <:+ cs) ∨
    (∃ n nl r, strictRules cs = .skip n nl r ∧ r <:+ cs) := by
  unfold strictRules
  split
  · rename_i t r heq
    exact Or.inr (Or.inl ⟨t, _, r, rfl, matchAxisDir_suffix cs t r heq⟩)
  split
  · rename_i t r heq
    exact Or.inr (Or.inl ⟨t, _, r, rfl, matchKeyword_suffix cs t r heq⟩)
  split
  · rename_i t r heq
    exact Or.inr (Or.inl ⟨t, _, r, rfl, matchCode_suffix cs t r heq⟩)
  split
  · rename_i t r heq
    exact Or.inr (Or.inl ⟨t, _, r, rfl, matchName_suffix cs t r heq⟩)
  split
  · rename_i t r heq
    exact Or.inr (Or.inl ⟨t, _, r, rfl, matchNumber_suffix cs t r heq⟩)
  split
  · exact Or.inr (Or.inl ⟨.LBRACKET, 1, _, rfl, List.suffix_cons _ _⟩)
  · exact Or.inr (Or.inl ⟨.LBRACKET, 1, _, rfl, List.suffix_cons _ _⟩)
  · exact Or.inr (Or.inl ⟨.RBRACKET, 1, _, rfl, List.suffix_cons _ _⟩)
  · exact Or.inr (Or.inl ⟨.RBRACKET, 1, _, rfl, List.suffix_cons _ _⟩)
  · exact Or.inr (Or.inr ⟨_, _, _, rfl, (newlineSpan_suffix _).trans (List.suffix_cons _ _)⟩)
  · exact Or.inr (Or.inl ⟨.COMMA, 1, _, rfl, List.suffix_cons _ _⟩)
  · exact Or.inl rfl

/-- The comment rule is the only lax/strict difference: on any position
not starting with `#`, both modes take the same step. -/
theorem lexStep_eq_of_ne_hash (c : Char) (cs : List Char) (h : c ≠ '#') :
    lexStep true (c :: cs) = lexStep false (c :: cs) := by
  by_cases hi : c = ' ' ∨ c = '\r' ∨ c = '\t' ∨ c = '\x0c'
  · simp [lexStep, hi]
  · simp [lexStep, hi, h]

/-- In strict mode a `#` hits `t_error`. -/
theorem lexStep_false_hash (cs : List Char) : lexStep false ('#' :: cs) = .err := rfl

/-- In lax mode a `#` starts a comment discarded through end of line. -/
theorem lexStep_true_hash (cs : List Char) :
    lexStep true ('#' :: cs) = .cmt ((commentSpan cs).1 + 1) (commentSpan cs).2 := rfl

theorem lexStep_false_ne_cmt (cs : List Char) (n : Nat) (r : List Char) :
    lexStep false cs ≠ .cmt n r := by
  cases cs with
  | nil => simp [lexStep]
  | cons c cs' =>
    by_cases h1 : c = ' ' ∨ c = '\r' ∨ c = '\t' ∨ c = '\x0c'
    · rw [show lexStep false (c :: cs') = .skip 1 0 cs' from by simp [lexStep, h1]]
      simp
    · rw [show lexStep false (c :: cs') = strictRules (c :: cs') from by simp [lexStep, h1]]
      rcases strictRules_cases (c :: cs') with he | ⟨t, n', r', he, -⟩ | ⟨n', nl', r', he, -⟩ <;>
        simp [he]

theorem lexStep_true_cmt_hash (cs : List Char) (n : Nat) (r : List Char)
    (h : lexStep true cs = .cmt n r) : ∃ cs', cs = '#' :: cs' := by
  cases cs with
  | nil => simp [lexStep] at h
  | cons c cs' =>
    by_cases hc : c = '#'
    · exact ⟨cs', by rw [hc]⟩
    · rw [lexStep_eq_of_ne_hash c cs' hc] at h
      exact absurd h (lexStep_false_ne_cmt _ _ _)

theorem lexStep_true_nonCmt_eq (cs : List Char)
    (h : ∀ n r, lexStep true cs ≠ .cmt n r) :
    lexStep true cs = lexStep false cs := by
  cases cs with
  | nil => rfl
  | cons c cs' =>
    by_cases hc : c = '#'
    · subst hc
      exact absurd (lexStep_true_hash cs') (h _ _)
    · exact lexStep_eq_of_ne_hash c cs' hc

theorem lexStep_skip_suffix (lax : Bool) (cs : List Char) (n nl : Nat) (r : List Char)
    (h : lexStep lax cs = .skip n nl r) : r <:+ cs := by
  cases cs with
  | nil => simp [lexStep] at h
  | cons c cs' =>
    by_cases h1 : c = ' ' ∨ c = '\r' ∨ c = '\t' ∨ c = '\x0c'
    · rw [show lexStep lax (c :: cs') = .skip 1 0 cs' from by simp [lexStep, h1]] at h
      injection h with e1 e2 e3
      subst e3
      exact List.suffix_cons c cs'
    · by_cases h2 : lax = true ∧ c = '#'
      · rw [show lexStep lax (c :: cs') =
            .cmt ((commentSpan cs').1 + 1) (commentSpan cs').2 from by
          simp [lexStep, h1, h2.1, h2.2]] at h
        cases h
      · rw [show lexStep lax (c :: cs') = strictRules (c :: cs') from by
          simp [lexStep, h1, h2]] at h
        rcases strictRules_cases (c :: cs') with he | ⟨t, n', r', he, hs⟩ | ⟨n', nl', r', he, hs⟩
        · rw [he] at h; cases h
        · rw [he] at h; cases h
        · rw [he] at h
          injection h with e1 e2 e3
          subst e3
          exact hs

theorem lexStep_tok_suffix (lax : Bool) (cs : List Char) (t : Tok) (n : Nat) (r : List Char)
    (h : lexStep lax cs = .tok t n r) : r <:+ cs := by
  cases cs with
  | nil => simp [lexStep] at h
  | cons c cs' =>
    by_cases h1 : c = ' ' ∨ c = '\r' ∨ c = '\t' ∨ c = '\x0c'
    · rw [show lexStep lax (c :: cs') = .skip 1 0 cs' from by simp [lexStep, h1]] at h
      cases h
    · by_cases h2 : lax = true ∧ c = '#'
      · rw [show lexStep lax (c :: cs') =
            .cmt ((commentSpan cs').1 + 1) (commentSpan cs').2 from by
          simp [lexStep, h1, h2.1, h2.2]] at h
        cases h
      · rw [show lexStep lax (c :: cs') = strictRules (c :: cs') from by
          simp [lexStep, h1, h2]] at h
        rcases strictRules_cases (c :: cs') with he | ⟨t', n', r', he, hs⟩ | ⟨n', nl', r', he, hs⟩
        · rw [he] at h; cases h
        · rw [he] at h
          injection h with e1 e2 e3
          subst e3
          exact hs
        · rw [he] at h; cases h

/-- On `#`-free input, lax and strict lexing agree step for step. -/
theorem lexRun_no_hash : ∀ (fuel : Nat) (cs : List Char) (pos line : Nat),
    (∀ c ∈ cs, c ≠ '#') → lexRun true fuel cs pos line = lexRun false fuel cs pos line := by
  intro fuel
  induction fuel with
  | zero => intro cs pos line _; rfl
  | succ fuel ih =>
    intro cs pos line hno
    have hstep : lexStep true cs = lexStep false cs := by
      cases cs with
      | nil => rfl
      | cons c cs' => exact lexStep_eq_of_ne_hash c cs' (hno c (List.mem_cons_self c cs'))
    unfold lexRun
    rw [hstep]
    cases hs : lexStep false cs with
    | eof => rfl
    | err => rfl
    | skip n nl r =>
      exact ih r _ _ (fun c hc => hno c ((lexStep_skip_suffix false cs n nl r hs).subset hc))
    | cmt n r => exact absurd hs (lexStep_false_ne_cmt cs n r)
    | tok t n r =>
      have e := ih r (pos + n) line
        (fun c hc => hno c ((lexStep_tok_suffix false cs t n r hs).subset hc))
      simp only [e]

/-- If lax lexing succeeds after discarding at least one comment, strict
lexing of the same input raises `WktSyntaxError` (at the first `#`). -/
theorem lexRun_comment_strict : ∀ (fuel : Nat) (cs : List Char) (pos line : Nat)
    (ts : List Tok) (nc : Nat), lexRun true fuel cs pos line = .ok (ts, nc) → 0 < nc →
    ∃ m, lexRun false fuel cs pos line = .error (.syntaxError m) := by
  intro fuel
  induction fuel with
  | zero =>
    intro cs pos line ts nc h hnc
    exact absurd h (by simp [lexRun])
  | succ fuel ih =>
    intro cs pos line ts nc h hnc
    unfold lexRun at h
    cases hs : lexStep true cs with
    | eof =>
      rw [hs] at h
      injection h with h
      have h0 : (0 : Nat) = nc := congrArg Prod.snd h
      omega
    | skip n nl r =>
      rw [hs] at h
      have hf : lexStep false cs = .skip n nl r := by
        rw [← lexStep_true_nonCmt_eq cs (by intro n' r' hx; rw [hs] at hx; cases hx)]
        exact hs
      obtain ⟨m, hm⟩ := ih r _ _ ts nc h hnc
      exact ⟨m, by unfold lexRun; simp only [hf]; exact hm⟩
    | cmt n r =>
      obtain ⟨cs', rfl⟩ := lexStep_true_cmt_hash cs n r hs
      exact ⟨tErrorMsg line pos ('#' :: cs'), by unfold lexRun; simp only [lexStep_false_hash]⟩
    | tok t n r =>
      rw [hs] at h
      have h' : (match lexRun true fuel r (pos + n) line with
        | Except.ok (ts, nc) => Except.ok (t :: ts, nc)
        | Except.error e => Except.error e) = Except.ok (ts, nc) := h
      cases hr : lexRun true fuel r (pos + n) line with
      | error e => rw [hr] at h'; exact absurd h' (by simp)
      | ok p =>
        cases p with
        | mk ts' nc' =>
          rw [hr] at h'
          injection h' with h''
          have hnc' : nc' = nc := congrArg Prod.snd h''
          subst hnc'
          have hf : lexStep false cs = .tok t n r := by
            rw [← lexStep_true_nonCmt_eq cs (by intro n' r' hx; rw [hs] at hx; cases hx)]
            exact hs
          obtain ⟨m, hm⟩ := ih r _ _ ts' nc' hr hnc
          exact ⟨m, by unfold lexRun; simp only [hf, hm]⟩
    | err => rw [hs] at h; cases h

/-! ### Claim C7 -/

/-- The token stream of `wktCommented` in lax mode, which is also the
strict-mode token stream of `wktUncommented`. -/
def wktCommentedToks : List Tok :=
  [.GEOG_CS, .LBRACKET, .NAME "G", .COMMA, .AXIS, .LBRACKET, .NAME "lat", .COMMA,
   .AXIS_DIR "NORTH", .RBRACKET, .COMMA, .AXIS, .LBRACKET, .NAME "lon", .COMMA,
   .AXIS_DIR "EAST", .RBRACKET, .RBRACKET]

/-- C7: if lax-mode lexing succeeds after discarding at least one `#`
comment, strict-mode lexing of the same input raises `WktSyntaxError`; on
every input free of `#` characters, lax and strict lexing agree (the
comment rule is the only lexer difference); concretely, the commented
document lexes in lax mode to exactly the strict-mode tokens of the
comment-stripped document, strict mode rejects it with a Syntax error,
and the lax parse equals the parse of the stripped document. -/
theorem C7_lax_comment_mode :
    (∀ fuel cs pos line ts nc, lexRun true fuel cs pos line = .ok (ts, nc) → 0 < nc →
      ∃ m, lexRun false fuel cs pos line = .error (.syntaxError m)) ∧
    (∀ fuel cs pos line, (∀ c ∈ cs, c ≠ '#') →
      lexRun true fuel cs pos line = lexRun false fuel cs pos line) ∧
    (∀ s : String, (∀ c ∈ s.data, c ≠ '#') → tokenize false s = tokenize true s) ∧
    tokenize false wktCommented = .ok (wktCommentedToks, 2) ∧
    tokenize true wktUncommented = .ok (wktCommentedToks, 0) ∧
    resultIsSyntax (parse_text true wktCommented) = true ∧
    parse_text false wktCommented = parse_text true wktUncommented ∧
    resultOk (parse_text false wktCommented) = true := by
  refine ⟨lexRun_comment_strict, lexRun_no_hash, ?_, by rfl, by rfl, by rfl, by rfl, by rfl⟩
  intro s h
  exact lexRun_no_hash _ _ _ _ h

/-- C7, witness: a lone comment line is accepted (and counted) by the lax
lexer and rejected by the strict lexer; a `#`-free input lexes the same
in both modes. -/
theorem C7_lax_comment_mode_witness :
    (∃ m, lexRun false 2 ['#'] 0 1 = .error (.syntaxError m)) ∧
    tokenize false "GEOGCS" = tokenize true "GEOGCS" :=
  ⟨C7_lax_comment_mode.1 2 ['#'] 0 1 [] 1 rfl (by decide),
   C7_lax_comment_mode.2.2.1 "GEOGCS" (by decide)⟩

/-! ### Claim C8 -/

/-- A digit is never one of a fixed non-digit character. -/
theorem isDigit_ne (c d : Char) (h : c.isDigit = true) (hd : d.isDigit = false) : c ≠ d := by
  intro e
  rw [e, hd] at h
  cases h

/-- Digits are not upper-case letters. -/
theorem isUpper_false_of_isDigit (c : Char) (h : c.isDigit = true) : c.isUpper = false := by
  simp [Char.isDigit] at h
  simp [Char.isUpper]
  intro hg
  have h1 : c.val.toNat ≤ 57 := h.2
  have h2 : 65 ≤ c.val.toNat := hg
  have h3 : 90 < c.val.toNat := by omega
  exact h3

/-- The characters `1`–`9` are digits. -/
theorem isDigit_of_one_le (c : Char) (hc : '1' ≤ c ∧ c ≤ '9') : c.isDigit = true := by
  simp [Char.isDigit]
  have h1 : 49 ≤ c.val.toNat := hc.1
  have h2 : c.val.toNat ≤ 57 := hc.2
  exact ⟨(by omega : 48 ≤ c.val.toNat), h2⟩

theorem digitSpan_append (d r : List Char) (hd : ∀ x ∈ d, x.isDigit = true) :
    digitSpan (d ++ r) = (d ++ (digitSpan r).1, (digitSpan r).2) := by
  induction d with
  | nil => simp
  | cons c d ih =>
    have hc : c.isDigit = true := hd c (by simp)
    have ihh := ih (fun x hx => hd x (by simp [hx]))
    simp [digitSpan, hc, ihh]

theorem digitSpan_none (r : List Char) (h : ∀ x, r.head? = some x → x.isDigit = false) :
    digitSpan r = ([], r) := by
  cases r with
  | nil => rfl
  | cons c rs => simp [digitSpan, h c rfl]

/-- `t_AXIS_DIR` cannot fire on a digit. -/
theorem matchAxisDir_isDigit (c : Char) (L : List Char) (h : c.isDigit = true) :
    matchAxisDir (c :: L) = none := by
  have h1 := isDigit_ne c 'N' h (by decide)
  have h2 := isDigit_ne c 'S' h (by decide)
  have h3 := isDigit_ne c 'E' h (by decide)
  have h4 := isDigit_ne c 'W' h (by decide)
  have h5 := isDigit_ne c 'U' h (by decide)
  have h6 := isDigit_ne c 'D' h (by decide)
  have h7 := isDigit_ne c 'O' h (by decide)
  simp [matchAxisDir, matchFirstLit, axisDirWords, dropLit, h1, h2, h3, h4, h5, h6, h7]

/-- `t_KEYWORD` cannot fire on a digit. -/
theorem matchKeyword_isDigit (c : Char) (L : List Char) (h : c.isDigit = true) :
    matchKeyword (c :: L) = none := by
  simp [matchKeyword, isUpper_false_of_isDigit c h]

/-- `t_CODE` requires an opening quote. -/
theorem matchCode_ne_quote (c : Char) (L : List Char) (h : c ≠ '"') :
    matchCode (c :: L) = none := by
  unfold matchCode
  split
  · rename_i heq
    injection heq with h1 h2
    exact absurd h1 h
  · rfl

/-- `t_NAME` requires an opening quote. -/
theorem matchName_ne_quote (c : Char) (L : List Char) (h : c ≠ '"') :
    matchName (c :: L) = none := by
  unfold matchName
  split
  · rename_i heq
    injection heq with h1 h2
    exact absurd h1 h
  · rfl

/-- The decimal alternative `[0-9]+\.[0-9]*` of the number regex. -/
theorem matchNumBody_dec (c : Char) (d₁ d₂ rest : List Char) (hc : c.isDigit = true)
    (h1 : ∀ x ∈ d₁, x.isDigit = true) (h2 : ∀ x ∈ d₂, x.isDigit = true)
    (h3 : ∀ x, rest.head? = some x → x.isDigit = false) :
    matchNumBody (c :: (d₁ ++ '.' :: d₂ ++ rest)) =
      some (c :: d₁ ++ '.' :: d₂, rest) := by
  have hspan : digitSpan (c :: (d₁ ++ '.' :: d₂ ++ rest)) =
      (c :: d₁, '.' :: (d₂ ++ rest)) := by
    simp [digitSpan, hc, digitSpan_append d₁ _ h1]
  unfold matchNumBody
  rw [hspan]
  simp [digitSpan_append d₂ rest h2, digitSpan_none rest h3]

/-- The integer alternative `[1-9][0-9]*` of the number regex. -/
theorem matchNumBody_int (c : Char) (ds rest : List Char) (hc : '1' ≤ c ∧ c ≤ '9')
    (hds : ∀ x ∈ ds, x.isDigit = true)
    (hrest : ∀ x, rest.head? = some x → x.isDigit = false ∧ x ≠ '.') :
    matchNumBody (c :: (ds ++ rest)) = some (c :: ds, rest) := by
  have hcd : c.isDigit = true := isDigit_of_one_le c hc
  have hspan : digitSpan (c :: (ds ++ rest)) = (c :: ds, rest) := by
    simp [digitSpan, hcd, digitSpan_append ds rest hds,
      digitSpan_none rest (fun x hx => (hrest x hx).1)]
  unfold matchNumBody
  rw [hspan]
  cases rest with
  | nil =>
    show matchNumBody.matchIntAlt (c :: (ds ++ [])) = _
    have hds2 : digitSpan ds = (ds, []) := by
      simpa [digitSpan] using digitSpan_append ds [] hds
    simp [matchNumBody.matchIntAlt, hc, hds2]
  | cons r0 rs =>
    obtain ⟨hr0d, hr0ne⟩ := hrest r0 rfl
    split
    · rename_i d₁ r₁ heq
      injection heq with he1 he2
      injection he2 with he2a he2b
      exact absurd he2a hr0ne
    · show matchNumBody.matchIntAlt (c :: (ds ++ r0 :: rs)) = _
      simp [matchNumBody.matchIntAlt, hc, digitSpan_append ds (r0 :: rs) hds, digitSpan, hr0d]

/-- The `0` alternative of the number regex. -/
theorem matchNumBody_zero (rest : List Char)
    (hrest : ∀ x, rest.head? = some x → x.isDigit = false ∧ x ≠ '.') :
    matchNumBody ('0' :: rest) = some (['0'], rest) := by
  have hspan : digitSpan ('0' :: rest) = (['0'], rest) := by
    simp [digitSpan, digitSpan_none rest (fun x hx => (hrest x hx).1)]
  unfold matchNumBody
  rw [hspan]
  cases rest with
  | nil => rfl
  | cons r0 rs =>
    obtain ⟨hr0d, hr0ne⟩ := hrest r0 rfl
    split
    · rename_i d₁ r₁ heq
      injection heq with he1 he2
      injection he2 with he2a he2b
      exact absurd he2a hr0ne
    · show matchNumBody.matchIntAlt ('0' :: r0 :: rs) = _
      simp [matchNumBody.matchIntAlt, digitSpan, hr0d]

/-- `t_NUMBER` on a digit-headed position fires exactly when the decimal
body matches (the sign alternative does not apply). -/
theorem matchNumber_digit (c : Char) (L m r : List Char) (hc : c.isDigit = true)
    (h : matchNumBody (c :: L) = some (m, r)) :
    matchNumber (c :: L) = some (.NUMBER (String.mk m), r) := by
  have hp := isDigit_ne c '+' hc (by decide)
  have hm := isDigit_ne c '-' hc (by decide)
  simp [matchNumber, hp, hm, h]

/-- A digit-headed position is handled by `t_NUMBER`, all earlier rules
failing. -/
theorem lexStep_false_num (c : Char) (L : List Char) (t : Tok) (r : List Char)
    (hc : c.isDigit = true) (h : matchNumber (c :: L) = some (t, r)) :
    lexStep false (c :: L) = .tok t ((c :: L).length - r.length) r := by
  have i1 := isDigit_ne c ' ' hc (by decide)
  have i2 := isDigit_ne c '\r' hc (by decide)
  have i3 := isDigit_ne c '\t' hc (by decide)
  have i4 := isDigit_ne c '\x0c' hc (by decide)
  rw [show lexStep false (c :: L) = strictRules (c :: L) from by
    simp [lexStep, i1, i2, i3, i4]]
  simp only [strictRules, matchAxisDir_isDigit c L hc, matchKeyword_isDigit c L hc,
    matchCode_ne_quote c L (isDigit_ne c '"' hc (by decide)),
    matchName_ne_quote c L (isDigit_ne c '"' hc (by decide)), h]

/-- C8, counterexample.  The literal `.5` does not become a NUMBER token:
the whole lex fails with the Syntax-kind error (`t_error`) at the `.`,
because the decimal regex requires at least one digit before the point. -/
theorem C8_counterexample :
    tokenize true ".5" = .error (.syntaxError (tErrorMsg 1 0 ['.', '5'])) := by
  rfl

/-- C8 (amended): the lexer turns signed integer and decimal literals
into single NUMBER tokens where the decimal form requires at least one
digit BEFORE the point (`[0-9]+\.[0-9]*`), the integer form is
`[1-9][0-9]*|0`, and a literal of the shape `.digits` is rejected with
the Syntax-kind lexical error rather than lexed as a NUMBER token. -/
theorem C8_number_lexing :
    (∀ rest : List Char, lexStep false ('.' :: rest) = .err) ∧
    (∀ (c : Char) (d₁ d₂ rest : List Char), c.isDigit = true →
      (∀ x ∈ d₁, x.isDigit = true) → (∀ x ∈ d₂, x.isDigit = true) →
      (∀ x, rest.head? = some x → x.isDigit = false) →
      lexStep false (c :: (d₁ ++ '.' :: d₂ ++ rest)) =
        .tok (.NUMBER (String.mk (c :: d₁ ++ '.' :: d₂))) (d₁.length + d₂.length + 2) rest) ∧
    (∀ (c : Char) (ds rest : List Char), ('1' ≤ c ∧ c ≤ '9') →
      (∀ x ∈ ds, x.isDigit = true) →
      (∀ x, rest.head? = some x → x.isDigit = false ∧ x ≠ '.') →
      lexStep false (c :: (ds ++ rest)) =
        .tok (.NUMBER (String.mk (c :: ds))) (ds.length + 1) rest) ∧
    (∀ rest : List Char, (∀ x, rest.head? = some x → x.isDigit = false ∧ x ≠ '.') →
      lexStep false ('0' :: rest) = .tok (.NUMBER "0") 1 rest) ∧
    tokenize true "49.0" = .ok ([.NUMBER "49.0"], 0) ∧
    tokenize true "400000" = .ok ([.NUMBER "400000"], 0) ∧
    tokenize true "5." = .ok ([.NUMBER "5."], 0) ∧
    tokenize true "-111" = .ok ([.NUMBER "-111"], 0) ∧
    tokenize true "+0.25" = .ok ([.NUMBER "+0.25"], 0) ∧
    tokenize true ".5" = .error (.syntaxError (tErrorMsg 1 0 ['.', '5'])) := by
  refine ⟨fun rest => rfl, ?_, ?_, ?_, rfl, rfl, rfl, rfl, rfl, rfl⟩
  · intro c d₁ d₂ rest hc h1 h2 h3
    have hb := matchNumBody_dec c d₁ d₂ rest hc h1 h2 h3
    have hn := matchNumber_digit c _ _ rest hc hb
    rw [lexStep_false_num c _ _ rest hc hn]
    congr 1
    simp [List.length_append]
    omega
  · intro c ds rest hc hds hrest
    have hb := matchNumBody_int c ds rest hc hds hrest
    have hn := matchNumber_digit c _ _ rest (isDigit_of_one_le c hc) hb
    rw [lexStep_false_num c _ _ rest (isDigit_of_one_le c hc) hn]
    congr 1
    simp [List.length_append]
    omega
  · intro rest hrest
    have hb := matchNumBody_zero rest hrest
    have hn := matchNumber_digit '0' _ _ rest (by decide) hb
    rw [lexStep_false_num '0' _ _ rest (by decide) hn]
    congr 1
    simp

/-- C8, witness for the amended theorem (the literals 49.0, 400000 and 0
at token starts). -/
theorem C8_number_lexing_witness :
    lexStep false ['4', '9', '.', '0'] =
      .tok (.NUMBER (String.mk ['4', '9', '.', '0'])) 4 [] ∧
    lexStep false ['4', '0', '0', '0', '0', '0'] =
      .tok (.NUMBER (String.mk ['4', '0', '0', '0', '0', '0'])) 6 [] ∧
    lexStep false ['0'] = .tok (.NUMBER "0") 1 [] :=
  ⟨C8_number_lexing.2.1 '4' ['9'] ['0'] [] (by decide) (by decide) (by decide) (by simp),
   C8_number_lexing.2.2.1 '4' ['0', '0', '0', '0', '0'] [] (by decide) (by decide) (by simp),
   C8_number_lexing.2.2.2.1 [] (by simp)⟩

/-! ### Claim C9 -/

theorem nonQuoteSpan_append (d r : List Char) (hd : ∀ x ∈ d, x ≠ '"') :
    nonQuoteSpan (d ++ r) = (d ++ (nonQuoteSpan r).1, (nonQuoteSpan r).2) := by
  induction d with
  | nil => simp
  | cons c d ih =>
    have hc : c ≠ '"' := hd c (by simp)
    have ihh := ih (fun x hx => hd x (by simp [hx]))
    simp [nonQuoteSpan, hc, ihh]

/-- A quoted all-digit string is matched by the CODE rule. -/
theorem lexStep_quoted_digits (ds rest : List Char) (hne : ds ≠ [])
    (hds : ∀ c ∈ ds, c.isDigit = true) :
    lexStep false ('"' :: (ds ++ '"' :: rest)) =
      .tok (.CODE (String.mk ds)) (ds.length + 2) rest := by
  have hspan : digitSpan (ds ++ '"' :: rest) = (ds, '"' :: rest) := by
    simp [digitSpan_append ds _ hds, digitSpan]
  have hcode : matchCode ('"' :: (ds ++ '"' :: rest)) = some (.CODE (String.mk ds), rest) := by
    simp [matchCode, hspan, hne]
  have ha : matchAxisDir ('"' :: (ds ++ '"' :: rest)) = none := rfl
  have hk : matchKeyword ('"' :: (ds ++ '"' :: rest)) = none := rfl
  rw [show lexStep false ('"' :: (ds ++ '"' :: rest)) =
      strictRules ('"' :: (ds ++ '"' :: rest)) from rfl]
  simp only [strictRules, ha, hk, hcode]
  congr 1
  simp only [List.length_append, List.length_cons]
  omega

/-- A quoted string containing a non-digit (and no quote) is matched by
the NAME rule. -/
theorem lexStep_quoted_name (pre : List Char) (c : Char) (suf rest : List Char)
    (hpre : ∀ x ∈ pre, x.isDigit = true) (hcd : c.isDigit = false) (hcq : c ≠ '"')
    (hsuf : ∀ x ∈ suf, x ≠ '"') :
    lexStep false ('"' :: ((pre ++ c :: suf) ++ '"' :: rest)) =
      .tok (.NAME (String.mk (pre ++ c :: suf))) ((pre ++ c :: suf).length + 2) rest := by
  have hspan : digitSpan ((pre ++ c :: suf) ++ '"' :: rest) =
      (pre, c :: (suf ++ '"' :: rest)) := by
    simp [digitSpan_append pre _ hpre, digitSpan, hcd]
  have hcode : matchCode ('"' :: ((pre ++ c :: suf) ++ '"' :: rest)) = none := by
    simp only [matchCode]
    rw [hspan]
    split
    · rename_i d r' heq
      injection heq with he1 he2
      injection he2 with he2a he2b
      exact absurd he2a hcq
    · rfl
  have hnq : ∀ x ∈ pre ++ c :: suf, x ≠ '"' := by
    intro x hx
    rcases List.mem_append.mp hx with hx | hx
    · exact isDigit_ne x '"' (hpre x hx) (by decide)
    · rcases List.mem_cons.mp hx with hx | hx
      · exact hx ▸ hcq
      · exact hsuf x hx
  have hassoc : (pre ++ c :: suf) ++ '"' :: rest = pre ++ c :: (suf ++ '"' :: rest) := by
    simp
  have hnspan : nonQuoteSpan (pre ++ c :: (suf ++ '"' :: rest)) =
      (pre ++ c :: suf, '"' :: rest) := by
    rw [← hassoc, nonQuoteSpan_append _ _ hnq]
    simp [nonQuoteSpan]
  have hname : matchName ('"' :: ((pre ++ c :: suf) ++ '"' :: rest)) =
      some (.NAME (String.mk (pre ++ c :: suf)), rest) := by
    simp [matchName, hnspan]
  have ha : matchAxisDir ('"' :: ((pre ++ c :: suf) ++ '"' :: rest)) = none := rfl
  have hk : matchKeyword ('"' :: ((pre ++ c :: suf) ++ '"' :: rest)) = none := rfl
  rw [show lexStep false ('"' :: ((pre ++ c :: suf) ++ '"' :: rest)) =
      strictRules ('"' :: ((pre ++ c :: suf) ++ '"' :: rest)) from rfl]
  simp only [strictRules, ha, hk, hcode, hname]
  congr 1
  simp only [List.length_append, List.length_cons]
  omega

/-- C9: a quoted nonempty all-digit string lexes as a CODE token (and a
quoted string with a non-digit as a NAME token) wherever it occurs, so a
coordinate system whose mandatory quoted label is all digits fails with a
Syntax-kind error while the same input with an ordinary label parses. -/
theorem C9_digit_label :
    (∀ ds rest, ds ≠ [] → (∀ c ∈ ds, c.isDigit = true) →
      lexStep false ('"' :: (ds ++ '"' :: rest)) =
        .tok (.CODE (String.mk ds)) (ds.length + 2) rest) ∧
    (∀ pre c suf rest, (∀ x ∈ pre, x.isDigit = true) → c.isDigit = false → c ≠ '"' →
      (∀ x ∈ suf, x ≠ '"') →
      lexStep false ('"' :: ((pre ++ c :: suf) ++ '"' :: rest)) =
        .tok (.NAME (String.mk (pre ++ c :: suf))) ((pre ++ c :: suf).length + 2) rest) ∧
    parse_text true wktProjCodeLabel = .error (.syntaxError "Syntax error at token CODE") ∧
    resultOk (parse_text true wktProjNameLabel) = true :=
  ⟨lexStep_quoted_digits, lexStep_quoted_name, rfl, rfl⟩

/-- C9, witness: the label 123 lexes as CODE, the label P as NAME. -/
theorem C9_digit_label_witness :
    lexStep false ['"', '1', '2', '3', '"'] =
      .tok (.CODE (String.mk ['1', '2', '3'])) 5 [] ∧
    lexStep false ['"', 'P', '"'] = .tok (.NAME (String.mk ['P'])) 3 [] :=
  ⟨C9_digit_label.1 ['1', '2', '3'] [] (by decide) (by decide),
   C9_digit_label.2.1 [] 'P' [] [] (by simp) (by decide) (by decide) (by simp)⟩

/-! ### Claim C10 -/

theorem alookup_setAttr_same (attrs : List (String × PyVal)) (k : String) (v : PyVal) :
    alookup (setAttr attrs k v) k = some v := by
  induction attrs with
  | nil => simp [setAttr, alookup]
  | cons p rest ih =>
    obtain ⟨k₀, v₀⟩ := p
    by_cases h0 : k₀ = k
    · simp [setAttr, h0, alookup]
    · simp [setAttr, h0, alookup, ih]

theorem alookup_setAttr_ne (attrs : List (String × PyVal)) (k : String) (v : PyVal)
    (k' : String) (h : k' ≠ k) :
    alookup (setAttr attrs k v) k' = alookup attrs k' := by
  induction attrs with
  | nil => simp [setAttr, alookup, Ne.symm h]
  | cons p rest ih =>
    obtain ⟨k₀, v₀⟩ := p
    by_cases h0 : k₀ = k
    · subst h0
      simp [setAttr, alookup, Ne.symm h]
    · simp [setAttr, h0, alookup, ih]

/-- Appending to a list attribute leaves every other attribute unchanged. -/
theorem appendAttr_keep (nt : String) (attrs : List (String × PyVal)) (k : String)
    (x : PyVal) (k' : String) (h : k' ≠ k) :
    ∃ attrs', appendAttr (.node nt attrs) k x = .node nt attrs' ∧
      alookup attrs' k' = alookup attrs k' := by
  unfold appendAttr
  simp only [getAttr]
  cases hl : alookup attrs k with
  | none => exact ⟨attrs, rfl, rfl⟩
  | some v =>
    cases v with
    | listv xs =>
      exact ⟨setAttr attrs k (.listv (xs ++ [x])), rfl, alookup_setAttr_ne attrs k _ k' h⟩
    | pynone => exact ⟨attrs, rfl, rfl⟩
    | str s => exact ⟨attrs, rfl, rfl⟩
    | intv n => exact ⟨attrs, rfl, rfl⟩
    | floatv q => exact ⟨attrs, rfl, rfl⟩
    | node nt2 a2 => exact ⟨attrs, rfl, rfl⟩

/-- The last node of kind `k` in a node list, if any. -/
def lastOfKind (k : String) : List PyVal → Option PyVal
  | [] => none
  | n :: ns =>
    match lastOfKind k ns with
    | some m => some m
    | none => if kindOf n = k then some n else none

theorem lastOfKind_cons (k : String) (n : PyVal) (ns : List PyVal) :
    lastOfKind k (n :: ns) =
      (lastOfKind k ns).or (if kindOf n = k then some n else none) := by
  cases h : lastOfKind k ns with
  | none => simp [lastOfKind, h]
  | some m => simp [lastOfKind, h]

/-- A classifier step that overwrites attribute `key` exactly on children of
kind `kind` makes the fold keep the last such child. -/
theorem foldClassify_last (step : PyVal → PyVal → Except PyExc PyVal)
    (key kind : String)
    (hstep : ∀ nt0 attrs0 n g', step (.node nt0 attrs0) n = .ok g' →
      ∃ attrs', g' = .node nt0 attrs' ∧
        (kindOf n = kind → alookup attrs' key = some n) ∧
        (kindOf n ≠ kind → alookup attrs' key = alookup attrs0 key)) :
    ∀ (ns : List PyVal) (nt0 : String) (attrs0 : List (String × PyVal)) (g : PyVal),
      foldClassify step (.node nt0 attrs0) ns = .ok g →
      getAttr g key = (lastOfKind kind ns).or (alookup attrs0 key) := by
  intro ns
  induction ns with
  | nil =>
    intro nt0 attrs0 g h
    simp only [foldClassify] at h
    injection h with h
    subst h
    simp [getAttr, lastOfKind, Option.none_or]
  | cons n ns ih =>
    intro nt0 attrs0 g h
    rw [show foldClassify step (.node nt0 attrs0) (n :: ns) =
        (match step (.node nt0 attrs0) n with
         | .ok g' => foldClassify step g' ns
         | .error e => .error e) from rfl] at h
    cases hs : step (.node nt0 attrs0) n with
    | error e =>
      rw [hs] at h
      cases h
    | ok g' =>
      rw [hs] at h
      obtain ⟨attrs', rfl, hset, hkeep⟩ := hstep nt0 attrs0 n g' hs
      have hrec := ih nt0 attrs' g h
      by_cases hk : kindOf n = kind
      · rw [hrec, hset hk, lastOfKind_cons, if_pos hk, Option.or_assoc]
        rfl
      · rw [hrec, hkeep hk, lastOfKind_cons, if_neg hk, Option.or_none]

theorem geogStep_shape_datum : ∀ (nt0 : String) (attrs0 : List (String × PyVal)) (n g' : PyVal),
    geogStep (.node nt0 attrs0) n = .ok g' →
    ∃ attrs', g' = .node nt0 attrs' ∧
      (kindOf n = "DATUM" → alookup attrs' "datum" = some n) ∧
      (kindOf n ≠ "DATUM" → alookup attrs' "datum" = alookup attrs0 "datum") := by
  intro nt0 attrs0 n g' h
  cases n with
  | node nt cattrs =>
    by_cases h1 : nt = "DATUM"
    · rw [show geogStep (.node nt0 attrs0) (.node nt cattrs) =
          .ok (nodeSetAttr (.node nt0 attrs0) "datum" (.node nt cattrs)) from by
            simp [geogStep, h1]] at h
      injection h with h
      exact ⟨setAttr attrs0 "datum" (.node nt cattrs), h.symm,
        fun _ => alookup_setAttr_same _ _ _,
        fun hne => absurd h1 (fun hh => hne hh)⟩
    · by_cases h2 : nt = "PRIMEM"
      · rw [show geogStep (.node nt0 attrs0) (.node nt cattrs) =
            .ok (nodeSetAttr (.node nt0 attrs0) "prime_meridian" (.node nt cattrs)) from by
              simp [geogStep, h1, h2]] at h
        injection h with h
        exact ⟨setAttr attrs0 "prime_meridian" (.node nt cattrs), h.symm,
          fun hk => absurd hk h1,
          fun _ => alookup_setAttr_ne _ _ _ _ (by decide)⟩
      · by_cases h3 : nt = "UNIT"
        · rw [show geogStep (.node nt0 attrs0) (.node nt cattrs) =
              .ok (nodeSetAttr (.node nt0 attrs0) "angular_unit" (.node nt cattrs)) from by
                simp [geogStep, h1, h2, h3]] at h
          injection h with h
          exact ⟨setAttr attrs0 "angular_unit" (.node nt cattrs), h.symm,
            fun hk => absurd hk h1,
            fun _ => alookup_setAttr_ne _ _ _ _ (by decide)⟩
        · by_cases h4 : nt = "AXIS"
          · rw [show geogStep (.node nt0 attrs0) (.node nt cattrs) =
                .ok (appendAttr (.node nt0 attrs0) "axis_list" (.node nt cattrs)) from by
                  simp [geogStep, h1, h2, h3, h4]] at h
            injection h with h
            obtain ⟨attrs', ha, hpres⟩ :=
              appendAttr_keep nt0 attrs0 "axis_list" (.node nt cattrs) "datum" (by decide)
            exact ⟨attrs', by rw [← h, ha], fun hk => absurd hk h1, fun _ => hpres⟩
          · by_cases h5 : nt = "AUTHORITY"
            · rw [show geogStep (.node nt0 attrs0) (.node nt cattrs) =
                  .ok (nodeSetAttr (.node nt0 attrs0) "authority" (.node nt cattrs)) from by
                    simp [geogStep, h1, h2, h3, h4, h5]] at h
              injection h with h
              exact ⟨setAttr attrs0 "authority" (.node nt cattrs), h.symm,
                fun hk => absurd hk h1,
                fun _ => alookup_setAttr_ne _ _ _ _ (by decide)⟩
            · simp [geogStep, h1, h2, h3, h4, h5] at h
  | pynone =>
    injection h with h
    exact ⟨attrs0, h.symm, fun hk => by simp [kindOf] at hk, fun _ => rfl⟩
  | str s =>
    injection h with h
    exact ⟨attrs0, h.symm, fun hk => by simp [kindOf] at hk, fun _ => rfl⟩
  | intv m =>
    injection h with h
    exact ⟨attrs0, h.symm, fun hk => by simp [kindOf] at hk, fun _ => rfl⟩
  | floatv q =>
    injection h with h
    exact ⟨attrs0, h.symm, fun hk => by simp [kindOf] at hk, fun _ => rfl⟩
  | listv xs =>
    injection h with h
    exact ⟨attrs0, h.symm, fun hk => by simp [kindOf] at hk, fun _ => rfl⟩

theorem geogStep_shape_unit : ∀ (nt0 : String) (attrs0 : List (String × PyVal)) (n g' : PyVal),
    geogStep (.node nt0 attrs0) n = .ok g' →
    ∃ attrs', g' = .node nt0 attrs' ∧
      (kindOf n = "UNIT" → alookup attrs' "angular_unit" = some n) ∧
      (kindOf n ≠ "UNIT" → alookup attrs' "angular_unit" = alookup attrs0 "angular_unit") := by
  intro nt0 attrs0 n g' h
  cases n with
  | node nt cattrs =>
    by_cases h1 : nt = "DATUM"
    · rw [show geogStep (.node nt0 attrs0) (.node nt cattrs) =
          .ok (nodeSetAttr (.node nt0 attrs0) "datum" (.node nt cattrs)) from by
            simp [geogStep, h1]] at h
      injection h with h
      exact ⟨setAttr attrs0 "datum" (.node nt cattrs), h.symm,
        fun hk => absurd (h1 ▸ hk : ("DATUM" : String) = "UNIT") (by decide),
        fun _ => alookup_setAttr_ne _ _ _ _ (by decide)⟩
    · by_cases h2 : nt = "PRIMEM"
      · rw [show geogStep (.node nt0 attrs0) (.node nt cattrs) =
            .ok (nodeSetAttr (.node nt0 attrs0) "prime_meridian" (.node nt cattrs)) from by
              simp [geogStep, h1, h2]] at h
        injection h with h
        exact ⟨setAttr attrs0 "prime_meridian" (.node nt cattrs), h.symm,
          fun hk => absurd (h2 ▸ hk : ("PRIMEM" : String) = "UNIT") (by decide),
          fun _ => alookup_setAttr_ne _ _ _ _ (by decide)⟩
      · by_cases h3 : nt = "UNIT"
        · rw [show geogStep (.node nt0 attrs0) (.node nt cattrs) =
              .ok (nodeSetAttr (.node nt0 attrs0) "angular_unit" (.node nt cattrs)) from by
                simp [geogStep, h1, h2, h3]] at h
          injection h with h
          exact ⟨setAttr attrs0 "angular_unit" (.node nt cattrs), h.symm,
            fun _ => alookup_setAttr_same _ _ _,
            fun hne => absurd h3 (fun hh => hne hh)⟩
        · by_cases h4 : nt = "AXIS"
          · rw [show geogStep (.node nt0 attrs0) (.node nt cattrs) =
                .ok (appendAttr (.node nt0 attrs0) "axis_list" (.node nt cattrs)) from by
                  simp [geogStep, h1, h2, h3, h4]] at h
            injection h with h
            obtain ⟨attrs', ha, hpres⟩ :=
              appendAttr_keep nt0 attrs0 "axis_list" (.node nt cattrs) "angular_unit" (by decide)
            exact ⟨attrs', by rw [← h, ha], fun hk => absurd hk h3, fun _ => hpres⟩
          · by_cases h5 : nt = "AUTHORITY"
            · rw [show geogStep (.node nt0 attrs0) (.node nt cattrs) =
                  .ok (nodeSetAttr (.node nt0 attrs0) "authority" (.node nt cattrs)) from by
                    simp [geogStep, h1, h2, h3, h4, h5]] at h
              injection h with h
              exact ⟨setAttr attrs0 "authority" (.node nt cattrs), h.symm,
                fun hk => absurd hk h3,
                fun _ => alookup_setAttr_ne _ _ _ _ (by decide)⟩
            · simp [geogStep, h1, h2, h3, h4, h5] at h
  | pynone =>
    injection h with h
    exact ⟨attrs0, h.symm, fun hk => by simp [kindOf] at hk, fun _ => rfl⟩
  | str s =>
    injection h with h
    exact ⟨attrs0, h.symm, fun hk => by simp [kindOf] at hk, fun _ => rfl⟩
  | intv m =>
    injection h with h
    exact ⟨attrs0, h.symm, fun hk => by simp [kindOf] at hk, fun _ => rfl⟩
  | floatv q =>
    injection h with h
    exact ⟨attrs0, h.symm, fun hk => by simp [kindOf] at hk, fun _ => rfl⟩
  | listv xs =>
    injection h with h
    exact ⟨attrs0, h.symm, fun hk => by simp [kindOf] at hk, fun _ => rfl⟩

theorem datumStep_shape : ∀ (nt0 : String) (attrs0 : List (String × PyVal)) (n g' : PyVal),
    datumStep (.node nt0 attrs0) n = .ok g' →
    ∃ attrs', g' = .node nt0 attrs' ∧
      (kindOf n = "SPHEROID" → alookup attrs' "spheroid" = some n) ∧
      (kindOf n ≠ "SPHEROID" → alookup attrs' "spheroid" = alookup attrs0 "spheroid") := by
  intro nt0 attrs0 n g' h
  cases n with
  | node nt cattrs =>
    by_cases h1 : nt = "SPHEROID"
    · rw [show datumStep (.node nt0 attrs0) (.node nt cattrs) =
          .ok (nodeSetAttr (.node nt0 attrs0) "spheroid" (.node nt cattrs)) from by
            simp [datumStep, h1]] at h
      injection h with h
      exact ⟨setAttr attrs0 "spheroid" (.node nt cattrs), h.symm,
        fun _ => alookup_setAttr_same _ _ _,
        fun hne => absurd h1 (fun hh => hne hh)⟩
    · by_cases h2 : nt = "TOWGS84"
      · rw [show datumStep (.node nt0 attrs0) (.node nt cattrs) =
            .ok (nodeSetAttr (.node nt0 attrs0) "towgs84" (.node nt cattrs)) from by
              simp [datumStep, h1, h2]] at h
        injection h with h
        exact ⟨setAttr attrs0 "towgs84" (.node nt cattrs), h.symm,
          fun hk => absurd hk h1,
          fun _ => alookup_setAttr_ne _ _ _ _ (by decide)⟩
      · by_cases h3 : nt = "AUTHORITY"
        · rw [show datumStep (.node nt0 attrs0) (.node nt cattrs) =
              .ok (nodeSetAttr (.node nt0 attrs0) "authority" (.node nt cattrs)) from by
                simp [datumStep, h1, h2, h3]] at h
          injection h with h
          exact ⟨setAttr attrs0 "authority" (.node nt cattrs), h.symm,
            fun hk => absurd hk h1,
            fun _ => alookup_setAttr_ne _ _ _ _ (by decide)⟩
        · simp [datumStep, h1, h2, h3] at h
  | pynone =>
    injection h with h
    exact ⟨attrs0, h.symm, fun hk => by simp [kindOf] at hk, fun _ => rfl⟩
  | str s =>
    injection h with h
    exact ⟨attrs0, h.symm, fun hk => by simp [kindOf] at hk, fun _ => rfl⟩
  | intv m =>
    injection h with h
    exact ⟨attrs0, h.symm, fun hk => by simp [kindOf] at hk, fun _ => rfl⟩
  | floatv q =>
    injection h with h
    exact ⟨attrs0, h.symm, fun hk => by simp [kindOf] at hk, fun _ => rfl⟩
  | listv xs =>
    injection h with h
    exact ⟨attrs0, h.symm, fun hk => by simp [kindOf] at hk, fun _ => rfl⟩

theorem classifyGeog_last_datum (nm : String) (ns : List PyVal) (g : PyVal)
    (h : classifyGeog nm ns = .ok g) :
    getAttr g "datum" = lastOfKind "DATUM" ns := by
  unfold classifyGeog at h
  cases hf : foldClassify geogStep
      (initNode "GEOGCS" [("name", .str nm), ("axis_list", .listv [])]) ns with
  | error e =>
    rw [hf] at h
    cases h
  | ok g0 =>
    rw [hf] at h
    have h2 : (if axisCount g0 = 0 ∨ axisCount g0 = 2 then Except.ok g0
        else Except.error (PyExc.syntaxError ("Geographic CS accepts 0 or 2 axes, " ++
          toString (axisCount g0) ++ " defined."))) = Except.ok g := h
    have hg : g0 = g := by
      by_cases hax : axisCount g0 = 0 ∨ axisCount g0 = 2
      · rw [if_pos hax] at h2
        injection h2
      · rw [if_neg hax] at h2
        cases h2
    subst hg
    have hf' : foldClassify geogStep
        (.node "GEOGCS" [("name", PyVal.str nm), ("authority", PyVal.pynone),
          ("axis_list", PyVal.listv [])]) ns = .ok g0 := hf
    have hlast := foldClassify_last geogStep "datum" "DATUM" geogStep_shape_datum
      ns "GEOGCS" _ g0 hf'
    rw [hlast,
      show alookup [("name", PyVal.str nm), ("authority", PyVal.pynone),
        ("axis_list", PyVal.listv [])] "datum" = none from rfl,
      Option.or_none]

theorem classifyGeog_last_unit (nm : String) (ns : List PyVal) (g : PyVal)
    (h : classifyGeog nm ns = .ok g) :
    getAttr g "angular_unit" = lastOfKind "UNIT" ns := by
  unfold classifyGeog at h
  cases hf : foldClassify geogStep
      (initNode "GEOGCS" [("name", .str nm), ("axis_list", .listv [])]) ns with
  | error e =>
    rw [hf] at h
    cases h
  | ok g0 =>
    rw [hf] at h
    have h2 : (if axisCount g0 = 0 ∨ axisCount g0 = 2 then Except.ok g0
        else Except.error (PyExc.syntaxError ("Geographic CS accepts 0 or 2 axes, " ++
          toString (axisCount g0) ++ " defined."))) = Except.ok g := h
    have hg : g0 = g := by
      by_cases hax : axisCount g0 = 0 ∨ axisCount g0 = 2
      · rw [if_pos hax] at h2
        injection h2
      · rw [if_neg hax] at h2
        cases h2
    subst hg
    have hf' : foldClassify geogStep
        (.node "GEOGCS" [("name", PyVal.str nm), ("authority", PyVal.pynone),
          ("axis_list", PyVal.listv [])]) ns = .ok g0 := hf
    have hlast := foldClassify_last geogStep "angular_unit" "UNIT" geogStep_shape_unit
      ns "GEOGCS" _ g0 hf'
    rw [hlast,
      show alookup [("name", PyVal.str nm), ("authority", PyVal.pynone),
        ("axis_list", PyVal.listv [])] "angular_unit" = none from rfl,
      Option.or_none]

theorem classifyDatum_last (nm : String) (ns : List PyVal) (g : PyVal)
    (h : classifyDatum nm ns = .ok g) :
    getAttr g "spheroid" = lastOfKind "SPHEROID" ns := by
  have h' : foldClassify datumStep
      (.node "DATUM" [("name", PyVal.str nm), ("authority", PyVal.pynone)]) ns = .ok g := h
  have hlast := foldClassify_last datumStep "spheroid" "SPHEROID" datumStep_shape
    ns "DATUM" _ g h'
  rw [hlast,
    show alookup [("name", PyVal.str nm), ("authority", PyVal.pynone)] "spheroid" = none
      from rfl,
    Option.or_none]

/-- C10: when a coordinate-system body repeats a same-kind child that is
stored in a scalar field, each occurrence overwrites the field, so the last
occurrence wins; with two UNIT (resp. SPHEROID) children the surviving
`angular_unit` (resp. `spheroid`) is the second one. -/
theorem C10_last_wins :
    (∀ nm ns g, classifyGeog nm ns = .ok g →
      getAttr g "datum" = lastOfKind "DATUM" ns) ∧
    (∀ nm ns g, classifyGeog nm ns = .ok g →
      getAttr g "angular_unit" = lastOfKind "UNIT" ns) ∧
    (∀ nm ns g, classifyDatum nm ns = .ok g →
      getAttr g "spheroid" = lastOfKind "SPHEROID" ns) ∧
    parse_text true wktTwoUnits = .ok (PyVal.node "GEOGCS"
      [("name", PyVal.str "G"),
       ("authority", PyVal.pynone),
       ("axis_list", PyVal.listv
         [PyVal.node "AXIS"
           [("name", PyVal.str "x"), ("authority", PyVal.pynone),
            ("direction", PyVal.str "NORTH")],
          PyVal.node "AXIS"
           [("name", PyVal.str "y"), ("authority", PyVal.pynone),
            ("direction", PyVal.str "EAST")]]),
       ("angular_unit", PyVal.node "UNIT"
         [("name", PyVal.str "b"), ("authority", PyVal.pynone),
          ("conversion_factor", PyVal.floatv (mkRat 20 10))])]) ∧
    parse_text true wktTwoSpheroids = .ok (PyVal.node "GEOGCS"
      [("name", PyVal.str "G"),
       ("authority", PyVal.pynone),
       ("axis_list", PyVal.listv []),
       ("datum", PyVal.node "DATUM"
         [("name", PyVal.str "D"),
          ("authority", PyVal.pynone),
          ("spheroid", PyVal.node "SPHEROID"
            [("name", PyVal.str "s2"), ("authority", PyVal.pynone),
             ("semi_major_axis", PyVal.floatv (mkRat 30 10)),
             ("inverse_flattening", PyVal.floatv (mkRat 40 10))])])]) :=
  ⟨classifyGeog_last_datum, classifyGeog_last_unit, classifyDatum_last, rfl, rfl⟩

/-- C10, witness: the general parts applied to an empty child list. -/
theorem C10_last_wins_witness :
    getAttr (initNode "GEOGCS" [("name", PyVal.str "G"), ("axis_list", PyVal.listv [])])
        "datum" = lastOfKind "DATUM" [] ∧
    getAttr (initNode "GEOGCS" [("name", PyVal.str "G"), ("axis_list", PyVal.listv [])])
        "angular_unit" = lastOfKind "UNIT" [] ∧
    getAttr (initNode "DATUM" [("name", PyVal.str "D")]) "spheroid" =
      lastOfKind "SPHEROID" [] :=
  ⟨C10_last_wins.1 "G" [] _ rfl, C10_last_wins.2.1 "G" [] _ rfl,
   C10_last_wins.2.2.1 "D" [] _ rfl⟩

end CrsWkt
